import Mathlib

/-!
Shallow embedding of the wallet-service transaction engine
(`src/app/service.py`, `src/app/routers/wallet.py`, `src/app/models.py`).

Modelling conventions:
* `Decimal(20,4)` money is embedded as `Int` (fixed-point: the code only adds,
  subtracts, negates and compares amounts, so scaled integers are exact).
* UUIDs are embedded as `Nat`; fresh UUIDs (`uuid.uuid4()`) are drawn from a
  `next_id` counter in the database state, freshness being an invariant.
* Timestamps (`datetime.now(timezone.utc)`) are the `now : Nat` field of the
  state; `timedelta(hours=ttl)` is `+ ttl`.
* A SQLAlchemy `Session` holding uncommitted changes is the `DB` value threaded
  through the functions; raising an exception is returning `Except.error`, and
  the router's `db.rollback()` is returning the caller's original `DB`.
* SQLAlchemy's identity map means the two `_lock_wallet` results may alias the
  same row object; the embedding therefore addresses wallets by id and re-reads
  them from the current state inside `apply_debit` / `apply_credit`.
* The opaque `metadata` JSON column of `transactions` is not modelled: no
  claim concerns it (it only stores `payment_reference` / `reason` /
  `item_reference` echoes).  The surrogate primary key of `idempotency_keys`
  is likewise unused by the logic and omitted.
-/

namespace WalletService

/-- `app.models.AssetType` (`src/app/models.py:21`). -/
structure AssetType where
  id : Nat
  name : String
  symbol : String
  is_active : Bool
deriving Repr, DecidableEq

/-- `app.models.Account` (`src/app/models.py:41`). -/
structure Account where
  id : Nat
  username : String
  is_system : Bool
  is_active : Bool
deriving Repr, DecidableEq

/-- `app.models.Wallet` (`src/app/models.py:61`). -/
structure Wallet where
  id : Nat
  account_id : Nat
  asset_type_id : Nat
  balance : Int
  version : Nat
  updated_at : Nat
deriving Repr, DecidableEq

/-- `app.models.Transaction` (`src/app/models.py:98`): one signed ledger entry. -/
structure Transaction where
  id : Nat
  reference_id : Nat
  transaction_type : String
  wallet_id : Nat
  amount : Int
  balance_after : Int
  description : Option String
  idempotency_key : Option String
  created_at : Nat
deriving Repr, DecidableEq

/-- The response dict built by the three mutating flows
(`service.py:316`, `service.py:379`, `service.py:445`).  In the source every
value is stringified (`str(ref_id)`, `str(amount)`, ...); stringification of
ids and fixed-point decimals is injective, so the fields keep their types
here and the JSON round-trip through `idempotency_keys.response_body`
(`json.dumps` then `json.loads`) is the identity. -/
structure ResultBody where
  reference_id : Nat
  transaction_type : String
  amount : Int
  balance_after : Int
  message : String
deriving Repr, DecidableEq

/-- `app.models.IdempotencyKey` (`src/app/models.py:132`). -/
structure IdempotencyKey where
  key : String
  endpoint : String
  response_body : ResultBody
  created_at : Nat
  expires_at : Nat
deriving Repr, DecidableEq

/-- The typed exceptions of `src/app/exceptions.py`.  `account_not_found`
carries the formatted detail string (`str(account_id)` or
`"system:" ++ username`), the other payloads mirror the constructor
arguments.  `unique_violation` stands for the store's IntegrityError on the
unique `idempotency_keys.key` constraint, which is not a
`WalletServiceError` and has no entry in the router's error mapping.
`internal_model_error` marks branches unreachable in the source (a wallet
object that was just locked cannot vanish from the session). -/
inductive Err where
  | account_not_found (detail : String)
  | asset_type_not_found (asset_type_id : Nat)
  | wallet_not_found (account_id asset_type_id : Nat)
  | insufficient_funds (balance requested : Int) (asset_symbol : String)
  | negative_balance (wallet_id : Nat) (resulting_balance : Int)
  | idempotency_conflict (key : String)
  | duplicate_idempotent_request (key : String) (cached_response : ResultBody)
  | unique_violation (key : String)
  | internal_model_error
deriving Repr, DecidableEq

/-- The relational store plus session state: the five tables of
`src/app/models.py`, the fresh-id source and the current instant. -/
structure DB where
  accounts : List Account
  asset_types : List AssetType
  wallets : List Wallet
  transactions : List Transaction
  idempotency_keys : List IdempotencyKey
  next_id : Nat
  now : Nat
deriving Repr, DecidableEq

/-- `_get_active_account` (`service.py:80`): fetch by id, require `is_active`. -/
def get_active_account (db : DB) (account_id : Nat) : Except Err Account :=
  match db.accounts.find? (fun a => a.id == account_id) with
  | none => .error (.account_not_found (toString account_id))
  | some a =>
    if a.is_active then .ok a else .error (.account_not_found (toString account_id))

/-- `_get_active_asset_type` (`service.py:72`). -/
def get_active_asset_type (db : DB) (asset_type_id : Nat) : Except Err AssetType :=
  match db.asset_types.find? (fun a => a.id == asset_type_id) with
  | none => .error (.asset_type_not_found asset_type_id)
  | some a =>
    if a.is_active then .ok a else .error (.asset_type_not_found asset_type_id)

/-- `_get_system_account` (`service.py:88`): lookup by username with
`is_system == True`. -/
def get_system_account (db : DB) (username : String) : Except Err Account :=
  match db.accounts.find? (fun a => a.username == username && a.is_system) with
  | none => .error (.account_not_found ("system:" ++ username))
  | some a => .ok a

/-- `_lock_wallet` (`service.py:98`): `SELECT ... FOR UPDATE` on the
`(account_id, asset_type_id)` wallet row; `WalletNotFoundError` when absent.
The lock itself needs no model: the embedding is sequential, which is exactly
the serialisation the lock buys. -/
def lock_wallet (db : DB) (account_id asset_type_id : Nat) : Except Err Wallet :=
  match db.wallets.find?
      (fun w => w.account_id == account_id && w.asset_type_id == asset_type_id) with
  | none => .error (.wallet_not_found account_id asset_type_id)
  | some w => .ok w

/-- In-session read of a wallet row by primary key (the identity map: mutating
a locked wallet object mutates the row every later reference sees). -/
def find_wallet (db : DB) (wallet_id : Nat) : Option Wallet :=
  db.wallets.find? (fun w => w.id == wallet_id)

/-- Point update of the wallet row(s) with the given id. -/
def update_wallet_list (ws : List Wallet) (wallet_id : Nat) (f : Wallet → Wallet) :
    List Wallet :=
  ws.map (fun w => if w.id == wallet_id then f w else w)

/-- Python string truthiness of `description or fallback`. -/
def py_str_or (s : Option String) (fallback : String) : String :=
  match s with
  | none => fallback
  | some v => if v == "" then fallback else v

/-- Python truthiness of `if idempotency_key:` — `None` and `""` are falsy. -/
def key_present : Option String → Bool
  | none => false
  | some k => k != ""

/-- `_apply_debit` (`service.py:142`): subtract `amount`, reject a negative
result (`NegativeBalanceError`), bump `version`, refresh `updated_at`, append
the ledger entry with the negated amount. -/
def apply_debit (db : DB) (wallet_id : Nat) (amount : Int) (ref_id : Nat)
    (tx_type : String) (description idempotency_key : Option String) :
    Except Err (DB × Transaction) :=
  match find_wallet db wallet_id with
  | none => .error .internal_model_error
  | some w =>
    let new_balance := w.balance - amount
    if new_balance < 0 then
      .error (.negative_balance wallet_id new_balance)
    else
      let tx : Transaction := {
        id := db.next_id, reference_id := ref_id, transaction_type := tx_type,
        wallet_id := wallet_id, amount := -amount, balance_after := new_balance,
        description := description, idempotency_key := idempotency_key,
        created_at := db.now }
      .ok ({ db with
              wallets := update_wallet_list db.wallets wallet_id (fun w0 =>
                { w0 with balance := new_balance, version := w0.version + 1,
                          updated_at := db.now }),
              transactions := db.transactions ++ [tx],
              next_id := db.next_id + 1 }, tx)

/-- `_apply_credit` (`service.py:175`): add `amount` (no balance check), bump
`version`, refresh `updated_at`, append the positive ledger entry. -/
def apply_credit (db : DB) (wallet_id : Nat) (amount : Int) (ref_id : Nat)
    (tx_type : String) (description idempotency_key : Option String) :
    Except Err (DB × Transaction) :=
  match find_wallet db wallet_id with
  | none => .error .internal_model_error
  | some w =>
    let new_balance := w.balance + amount
    let tx : Transaction := {
      id := db.next_id, reference_id := ref_id, transaction_type := tx_type,
      wallet_id := wallet_id, amount := amount, balance_after := new_balance,
      description := description, idempotency_key := idempotency_key,
      created_at := db.now }
    .ok ({ db with
            wallets := update_wallet_list db.wallets wallet_id (fun w0 =>
              { w0 with balance := new_balance, version := w0.version + 1,
                        updated_at := db.now }),
            transactions := db.transactions ++ [tx],
            next_id := db.next_id + 1 }, tx)

/-- `_check_idempotency` (`service.py:210`): select by `key` alone (`key` is
unique); a record for a different endpoint raises
`IdempotencyConflictError`; otherwise the cached body is returned.  Note the
source never reads `record.expires_at` here — an expired record is still
returned as a hit (relevant to claim C4). -/
def check_idempotency (db : DB) (key endpoint : String) :
    Except Err (Option ResultBody) :=
  match db.idempotency_keys.find? (fun r => r.key == key) with
  | none => .ok none
  | some record =>
    if record.endpoint != endpoint then .error (.idempotency_conflict key)
    else .ok (some record.response_body)

/-- `ttl_hours or settings.IDEMPOTENCY_KEY_TTL_HOURS` (`service.py:242`,
default 24 from `config.py:21`; Python `or` also replaces an explicit 0). -/
def resolve_ttl (ttl_hours : Option Nat) : Nat :=
  match ttl_hours with
  | none => 24
  | some t => if t == 0 then 24 else t

/-- `_store_idempotency` (`service.py:234`): append the record with
`expires_at = now + ttl` inside the current transaction. -/
def store_idempotency (db : DB) (key endpoint : String) (response : ResultBody)
    (ttl_hours : Option Nat) : DB :=
  { db with idempotency_keys := db.idempotency_keys ++
      [{ key := key, endpoint := endpoint, response_body := response,
         created_at := db.now, expires_at := db.now + resolve_ttl ttl_hours }] }

/-- Step 1 of every mutating flow (`service.py:283`, `350`, `413`): when an
idempotency key is (truthily) present, a cached body raises
`DuplicateIdempotentRequestError` so the router can short-circuit. -/
def idem_step (db : DB) (idempotency_key : Option String) (endpoint : String) :
    Except Err Unit :=
  match idempotency_key with
  | none => .ok ()
  | some k =>
    if k == "" then .ok ()
    else
      match check_idempotency db k endpoint with
      | .error e => .error e
      | .ok none => .ok ()
      | .ok (some cached) => .error (.duplicate_idempotent_request k cached)

/-- Step 6 of every mutating flow (`service.py:325`, `387`, `453`). -/
def maybe_store_idempotency (db : DB) (idempotency_key : Option String)
    (endpoint : String) (response : ResultBody) : DB :=
  match idempotency_key with
  | none => db
  | some k => if k == "" then db else store_idempotency db k endpoint response none

/-- The debit/credit pair shared verbatim by the three flows
(`service.py:307`–`312`, `370`–`375`, `436`–`441`): debit the source wallet,
then credit the destination wallet, under one `ref_id`. -/
def apply_pair (db : DB) (src_wallet_id dst_wallet_id : Nat) (amount : Int)
    (ref_id : Nat) (tx_type : String)
    (debit_description credit_description idempotency_key : Option String) :
    Except Err (DB × Transaction × Transaction) :=
  match apply_debit db src_wallet_id amount ref_id tx_type debit_description
      idempotency_key with
  | .error e => .error e
  | .ok (db1, debit_tx) =>
    match apply_credit db1 dst_wallet_id amount ref_id tx_type
        credit_description idempotency_key with
    | .error e => .error e
    | .ok (db2, credit_tx) => .ok (db2, debit_tx, credit_tx)

/-- `top_up` (`service.py:256`): debit the Treasury system wallet, credit the
user wallet.  The step order mirrors the source exactly: idempotency check,
account / asset / system-account validation, lock system wallet then user
wallet, treasury-balance check, fresh `ref_id`, debit + credit, build the
response dict, store the idempotency record in the same transaction. -/
def top_up (db : DB) (user_account_id asset_type_id : Nat) (amount : Int)
    (payment_reference description idempotency_key : Option String) :
    Except Err (DB × ResultBody) :=
  match idem_step db idempotency_key "top_up" with
  | .error e => .error e
  | .ok _ =>
  match get_active_account db user_account_id with
  | .error e => .error e
  | .ok _ =>
  match get_active_asset_type db asset_type_id with
  | .error e => .error e
  | .ok asset =>
  match get_system_account db "system_treasury" with
  | .error e => .error e
  | .ok treasury =>
  match lock_wallet db treasury.id asset_type_id with
  | .error e => .error e
  | .ok src_wallet =>
  match lock_wallet db user_account_id asset_type_id with
  | .error e => .error e
  | .ok dst_wallet =>
  if src_wallet.balance < amount then
    .error (.insufficient_funds src_wallet.balance amount asset.symbol)
  else
    let ref_id := db.next_id
    let db0 : DB := { db with next_id := db.next_id + 1 }
    match apply_pair db0 src_wallet.id dst_wallet.id amount ref_id "TOPUP"
        (some ("Treasury debit for top-up: " ++ py_str_or description ""))
        (some (py_str_or description
          ("Top-up of " ++ toString amount ++ " " ++ asset.symbol)))
        idempotency_key with
    | .error e => .error e
    | .ok (db1, _, credit_tx) =>
      let result : ResultBody := {
        reference_id := ref_id, transaction_type := "TOPUP", amount := amount,
        balance_after := credit_tx.balance_after,
        message := "Successfully credited " ++ toString amount ++ " " ++
          asset.symbol ++ " to your wallet." }
      .ok (maybe_store_idempotency db1 idempotency_key "top_up" result, result)

/-- `issue_bonus` (`service.py:331`): debit the Bonus Pool system wallet,
credit the user wallet; same template as `top_up`. -/
def issue_bonus (db : DB) (user_account_id asset_type_id : Nat) (amount : Int)
    (reason description idempotency_key : Option String) :
    Except Err (DB × ResultBody) :=
  match idem_step db idempotency_key "issue_bonus" with
  | .error e => .error e
  | .ok _ =>
  match get_active_account db user_account_id with
  | .error e => .error e
  | .ok _ =>
  match get_active_asset_type db asset_type_id with
  | .error e => .error e
  | .ok asset =>
  match get_system_account db "system_bonus_pool" with
  | .error e => .error e
  | .ok bonus_pool =>
  match lock_wallet db bonus_pool.id asset_type_id with
  | .error e => .error e
  | .ok src_wallet =>
  match lock_wallet db user_account_id asset_type_id with
  | .error e => .error e
  | .ok dst_wallet =>
  if src_wallet.balance < amount then
    .error (.insufficient_funds src_wallet.balance amount asset.symbol)
  else
    let ref_id := db.next_id
    let db0 : DB := { db with next_id := db.next_id + 1 }
    match apply_pair db0 src_wallet.id dst_wallet.id amount ref_id "BONUS"
        (some ("Bonus pool debit: " ++ py_str_or reason ""))
        (some (py_str_or description
          ("Bonus: " ++ py_str_or reason "system grant" ++ " — " ++
            toString amount ++ " " ++ asset.symbol)))
        idempotency_key with
    | .error e => .error e
    | .ok (db1, _, credit_tx) =>
      let result : ResultBody := {
        reference_id := ref_id, transaction_type := "BONUS", amount := amount,
        balance_after := credit_tx.balance_after,
        message := "Bonus of " ++ toString amount ++ " " ++ asset.symbol ++
          " issued successfully." }
      .ok (maybe_store_idempotency db1 idempotency_key "issue_bonus" result, result)

/-- `spend` (`service.py:393`): debit the user wallet, credit the Revenue
system wallet.  Unlike the other flows, the user (source) wallet is locked
first and the balance check happens before the revenue wallet is locked; the
reported `balance_after` comes from the debit entry. -/
def spend (db : DB) (user_account_id asset_type_id : Nat) (amount : Int)
    (item_reference description idempotency_key : Option String) :
    Except Err (DB × ResultBody) :=
  match idem_step db idempotency_key "spend" with
  | .error e => .error e
  | .ok _ =>
  match get_active_account db user_account_id with
  | .error e => .error e
  | .ok _ =>
  match get_active_asset_type db asset_type_id with
  | .error e => .error e
  | .ok asset =>
  match get_system_account db "system_revenue" with
  | .error e => .error e
  | .ok revenue =>
  match lock_wallet db user_account_id asset_type_id with
  | .error e => .error e
  | .ok src_wallet =>
  if src_wallet.balance < amount then
    .error (.insufficient_funds src_wallet.balance amount asset.symbol)
  else
  match lock_wallet db revenue.id asset_type_id with
  | .error e => .error e
  | .ok dst_wallet =>
    let ref_id := db.next_id
    let db0 : DB := { db with next_id := db.next_id + 1 }
    match apply_pair db0 src_wallet.id dst_wallet.id amount ref_id "SPEND"
        (some (py_str_or description
          ("Spent " ++ toString amount ++ " " ++ asset.symbol)))
        (some ("Revenue credit from spend: " ++ py_str_or item_reference ""))
        idempotency_key with
    | .error e => .error e
    | .ok (db1, debit_tx, _) =>
      let result : ResultBody := {
        reference_id := ref_id, transaction_type := "SPEND", amount := amount,
        balance_after := debit_tx.balance_after,
        message := "Successfully spent " ++ toString amount ++ " " ++
          asset.symbol ++ "." }
      .ok (maybe_store_idempotency db1 idempotency_key "spend" result, result)

/-- `get_transaction_history` (`service.py:485`): validate account and asset,
find the wallet (plain select), count all of its ledger entries, and return
the page `ORDER BY created_at DESC LIMIT limit OFFSET offset`. -/
def get_transaction_history (db : DB) (account_id asset_type_id : Nat)
    (limit offset : Nat) : Except Err (List Transaction × Nat) :=
  match get_active_account db account_id with
  | .error e => .error e
  | .ok _ =>
  match get_active_asset_type db asset_type_id with
  | .error e => .error e
  | .ok _ =>
  match db.wallets.find?
      (fun w => w.account_id == account_id && w.asset_type_id == asset_type_id) with
  | none => .error (.wallet_not_found account_id asset_type_id)
  | some wallet =>
    let mine := db.transactions.filter (fun t => t.wallet_id == wallet.id)
    let total := mine.length
    let sorted := mine.mergeSort (fun a b => decide (b.created_at ≤ a.created_at))
    .ok ((sorted.drop offset).take limit, total)

/-- The three mutating endpoints of `src/app/routers/wallet.py`. -/
inductive FlowTag where
  | topup
  | bonus
  | spend_flow
deriving Repr, DecidableEq

/-- The `ENDPOINT` constant of each flow (`service.py:280`, `348`, `411`). -/
def endpoint_of : FlowTag → String
  | .topup => "top_up"
  | .bonus => "issue_bonus"
  | .spend_flow => "spend"

/-- The well-known system counterparty username of each flow
(`service.py:63`–`65`). -/
def counterparty_of : FlowTag → String
  | .topup => "system_treasury"
  | .bonus => "system_bonus_pool"
  | .spend_flow => "system_revenue"

/-- (source account id, destination account id) of each flow, given the
resolved system account and the user account (table in spec §4.4). -/
def flow_src_dst (tag : FlowTag) (system_account_id user_account_id : Nat) :
    Nat × Nat :=
  match tag with
  | .topup => (system_account_id, user_account_id)
  | .bonus => (system_account_id, user_account_id)
  | .spend_flow => (user_account_id, system_account_id)

/-- Dispatch to the service function of a flow; `extra` is the flow-specific
optional field (`payment_reference` / `reason` / `item_reference`). -/
def run_flow (tag : FlowTag) (db : DB) (user_account_id asset_type_id : Nat)
    (amount : Int) (extra description idempotency_key : Option String) :
    Except Err (DB × ResultBody) :=
  match tag with
  | .topup => top_up db user_account_id asset_type_id amount
      extra description idempotency_key
  | .bonus => issue_bonus db user_account_id asset_type_id amount
      extra description idempotency_key
  | .spend_flow => spend db user_account_id asset_type_id amount
      extra description idempotency_key

/-- Outcome of one HTTP request to a mutating endpoint: status code plus
either the serialized `TransactionResponse` body or the structured error
detail `{code, message}` built by `_handle_service_errors`. -/
inductive HttpOutcome where
  | success (status : Nat) (body : ResultBody)
  | failure (status : Nat) (error_code : String) (err : Err)
deriving Repr, DecidableEq

/-- `_handle_service_errors` (`wallet.py:34`): the mapping dict, with the
fall-through `(500, "INTERNAL_ERROR")` for anything not listed — in
particular for the store's unique-constraint IntegrityError
(`unique_violation`), which appears nowhere in the dict. -/
def handle_service_errors (e : Err) : Nat × String :=
  match e with
  | .insufficient_funds _ _ _ => (402, "INSUFFICIENT_FUNDS")
  | .wallet_not_found _ _ => (404, "WALLET_NOT_FOUND")
  | .account_not_found _ => (404, "ACCOUNT_NOT_FOUND")
  | .asset_type_not_found _ => (404, "ASSET_TYPE_NOT_FOUND")
  | .idempotency_conflict _ => (409, "IDEMPOTENCY_CONFLICT")
  | .negative_balance _ _ => (500, "NEGATIVE_BALANCE")
  | _ => (500, "INTERNAL_ERROR")

/-- The shared try/except body of the three POST handlers
(`wallet.py:127`–`149`, `158`–`180`, `189`–`211`):
* success → `db.commit()` and the result body; FastAPI applies the route
  decorator's `status_code=201`;
* `DuplicateIdempotentRequestError` → return
  `TransactionResponse(**e.cached_response)` with the session untouched.
  NOTE: this return is a plain pydantic model, not a `Response`, so FastAPI
  still applies the decorator's `status_code=201` — there is no code path
  that sets 200 (the repo's own test `test_topup_idempotency_header`
  expects 200 here; claim C5);
* any other exception → `db.rollback()` and the `_handle_service_errors`
  mapping. -/
def route_mutating (db : DB) (outcome : Except Err (DB × ResultBody)) :
    DB × HttpOutcome :=
  match outcome with
  | .ok (db1, result) => (db1, .success 201 result)
  | .error (.duplicate_idempotent_request _ cached) => (db, .success 201 cached)
  | .error e =>
    let mapped := handle_service_errors e
    (db, .failure mapped.1 mapped.2 e)

/-- One full HTTP request against a mutating endpoint. -/
def route_flow (tag : FlowTag) (db : DB) (user_account_id asset_type_id : Nat)
    (amount : Int) (extra description idempotency_key : Option String) :
    DB × HttpOutcome :=
  route_mutating db
    (run_flow tag db user_account_id asset_type_id amount extra description
      idempotency_key)

/-- Well-formedness of the store: wallet primary keys are unique (the store's
PK constraint) and every id already used by a ledger row is below the
fresh-id source (so `uuid.uuid4()` draws are genuinely fresh). -/
def DB.WF (db : DB) : Prop :=
  (db.wallets.map (fun w => w.id)).Nodup ∧
  (∀ t ∈ db.transactions, t.reference_id < db.next_id) ∧
  (∀ t ∈ db.transactions, t.id < db.next_id)

instance (db : DB) : Decidable db.WF := by
  unfold DB.WF
  infer_instance

/-- One mutating HTTP request, for reasoning about sequences of committed
operations (claim C10). -/
structure Op where
  tag : FlowTag
  user_account_id : Nat
  asset_type_id : Nat
  amount : Int
  extra : Option String
  description : Option String
  idempotency_key : Option String
deriving Repr, DecidableEq

/-- The store state after one request is handled: commit on success,
rollback otherwise (`route_mutating` already encodes both). -/
def apply_op (db : DB) (op : Op) : DB :=
  (route_flow op.tag db op.user_account_id op.asset_type_id op.amount op.extra
    op.description op.idempotency_key).1

/-- The store state after a sequence of requests. -/
def run_ops (db : DB) (ops : List Op) : DB := ops.foldl apply_op db

/-- Claim C6's scenario, as an explicit two-session interleaving: a competing
session durably commits the idempotency record `other` after this request's
`_check_idempotency` lookup (which therefore saw a miss) and before this
request's `db.commit()`.  What the code then does, step by step:
* if this flow succeeded and had (truthily) stored the same key, its INSERT
  into `idempotency_keys` violates the unique constraint on `key` at commit;
  SQLAlchemy raises `IntegrityError`, which the router's generic
  `except Exception` branch rolls back and maps through
  `_handle_service_errors` — whose dict has no entry for it, yielding
  `(500, "INTERNAL_ERROR")`.  Neither `service.py` nor `wallet.py` contains
  any retry: the transaction is not re-attempted;
* otherwise this request commits or rolls back exactly as in `route_mutating`.
In every branch the competing record `other` stays durable. -/
def route_flow_raced (tag : FlowTag) (db : DB) (other : IdempotencyKey)
    (user_account_id asset_type_id : Nat) (amount : Int)
    (extra description : Option String) (key : String) : DB × HttpOutcome :=
  match run_flow tag db user_account_id asset_type_id amount extra description
      (some key) with
  | .ok (db1, result) =>
    if other.key == key && key != "" then
      let mapped := handle_service_errors (.unique_violation key)
      ({ db with idempotency_keys := db.idempotency_keys ++ [other] },
        .failure mapped.1 mapped.2 (.unique_violation key))
    else
      ({ db1 with idempotency_keys := db1.idempotency_keys ++ [other] },
        .success 201 result)
  | .error (.duplicate_idempotent_request _ cached) =>
    ({ db with idempotency_keys := db.idempotency_keys ++ [other] },
      .success 201 cached)
  | .error e =>
    let mapped := handle_service_errors e
    ({ db with idempotency_keys := db.idempotency_keys ++ [other] },
      .failure mapped.1 mapped.2 e)

/-- The seed state of `src/tests/test_wallet.py` (`seed_data` fixture) and of
the end-to-end scenarios in spec §8: the three system accounts, the user
alice with 500 GC, treasury and bonus pool at 99 999 999, revenue at 0. -/
def demo_db : DB := {
  accounts := [
    { id := 1, username := "system_treasury", is_system := true, is_active := true },
    { id := 2, username := "system_bonus_pool", is_system := true, is_active := true },
    { id := 3, username := "system_revenue", is_system := true, is_active := true },
    { id := 4, username := "alice", is_system := false, is_active := true }],
  asset_types := [
    { id := 10, name := "Gold Coins", symbol := "GC", is_active := true }],
  wallets := [
    { id := 100, account_id := 1, asset_type_id := 10, balance := 99999999,
      version := 0, updated_at := 0 },
    { id := 101, account_id := 2, asset_type_id := 10, balance := 99999999,
      version := 0, updated_at := 0 },
    { id := 102, account_id := 3, asset_type_id := 10, balance := 0,
      version := 0, updated_at := 0 },
    { id := 103, account_id := 4, asset_type_id := 10, balance := 500,
      version := 0, updated_at := 0 }],
  transactions := [],
  idempotency_keys := [],
  next_id := 1000,
  now := 50 }

/-- A cached response body, as stored under some idempotency key. -/
def demo_cached_body : ResultBody := {
  reference_id := 900, transaction_type := "TOPUP", amount := 100,
  balance_after := 600,
  message := "Successfully credited 100 GC to your wallet." }

/-- `demo_db` with an idempotency record for `("K1", "top_up")` that expired
long before `demo_db.now = 50` (`expires_at = 10`). -/
def expired_db : DB :=
  { demo_db with idempotency_keys :=
      [{ key := "K1", endpoint := "top_up", response_body := demo_cached_body,
         created_at := 0, expires_at := 10 }] }

/-- The competing session's record for the claim C6 race. -/
def race_record : IdempotencyKey := {
  key := "K2", endpoint := "top_up", response_body := demo_cached_body,
  created_at := 49, expires_at := 73 }

/-- `demo_db` without alice's wallet (registration has not seeded it). -/
def wnf_db : DB :=
  { demo_db with wallets := demo_db.wallets.filter (fun w => w.id != 103) }

/-- `demo_db` with some ledger history: three entries on alice's wallet
(103) at times 1, 5, 3 and one entry on the revenue wallet (102). -/
def hist_db : DB :=
  { demo_db with transactions := [
    { id := 900, reference_id := 800, transaction_type := "TOPUP",
      wallet_id := 103, amount := 100, balance_after := 600,
      description := none, idempotency_key := none, created_at := 1 },
    { id := 901, reference_id := 801, transaction_type := "SPEND",
      wallet_id := 103, amount := -30, balance_after := 570,
      description := none, idempotency_key := none, created_at := 5 },
    { id := 902, reference_id := 801, transaction_type := "SPEND",
      wallet_id := 102, amount := 30, balance_after := 30,
      description := none, idempotency_key := none, created_at := 5 },
    { id := 903, reference_id := 802, transaction_type := "BONUS",
      wallet_id := 103, amount := 25, balance_after := 595,
      description := none, idempotency_key := none, created_at := 3 }] }

/-- The ledger entry `_apply_debit` appends when the source wallet holds
`bsrc` (used to state the characterization lemmas below). -/
def debit_tx_of (db : DB) (wid : Nat) (bsrc a : Int) (ref : Nat) (ty : String)
    (d k : Option String) : Transaction :=
  { id := db.next_id, reference_id := ref, transaction_type := ty,
    wallet_id := wid, amount := -a, balance_after := bsrc - a,
    description := d, idempotency_key := k, created_at := db.now }

/-- The ledger entry `_apply_credit` appends when the destination wallet
holds `bdst` at credit time. -/
def credit_tx_of (db : DB) (wid : Nat) (bdst a : Int) (ref : Nat) (ty : String)
    (d k : Option String) : Transaction :=
  { id := db.next_id, reference_id := ref, transaction_type := ty,
    wallet_id := wid, amount := a, balance_after := bdst + a,
    description := d, idempotency_key := k, created_at := db.now }

/-- The state `apply_pair` leaves behind on success: both wallets updated,
the two entries appended, two fresh ids consumed.  `bsrc` is the source
balance at debit time, `bdst` the destination balance at credit time (when
source and destination are the same row, `bdst = bsrc - a`). -/
def pair_post (db : DB) (src dst : Nat) (bsrc bdst a : Int) (ref : Nat)
    (ty : String) (d1 d2 k : Option String) : DB :=
  { db with
    wallets := update_wallet_list
      (update_wallet_list db.wallets src (fun w0 =>
        { w0 with balance := bsrc - a, version := w0.version + 1,
                  updated_at := db.now }))
      dst (fun w0 =>
        { w0 with balance := bdst + a, version := w0.version + 1,
                  updated_at := db.now }),
    transactions := db.transactions ++
      [debit_tx_of db src bsrc a ref ty d1 k,
       credit_tx_of { db with next_id := db.next_id + 1 } dst bdst a ref ty d2 k],
    next_id := db.next_id + 2 }

/-- Destination balance at credit time, given the pre-state balances of the
two locked rows: the identity map means a flow whose source and destination
resolve to the same wallet row credits the already-debited balance. -/
def bdst_of (src dst : Nat) (bsrc bdst a : Int) : Int :=
  if dst = src then bsrc - a else bdst

/-! ## Base lemmas about the store primitives -/

theorem find?_update_wallet_list (l : List Wallet) (wid wid2 : Nat)
    (f : Wallet → Wallet) (hf : ∀ w, (f w).id = w.id) :
    (update_wallet_list l wid f).find? (fun w => w.id == wid2) =
      (l.find? (fun w => w.id == wid2)).map
        (fun w => if w.id == wid then f w else w) := by
  unfold update_wallet_list
  have hcomp : ((fun w : Wallet => w.id == wid2) ∘
      (fun w => if w.id == wid then f w else w)) = (fun w => w.id == wid2) := by
    funext w
    by_cases h : (w.id == wid) = true
    · simp [Function.comp, h, hf]
    · simp [Function.comp, h]
  rw [List.find?_map, hcomp]

theorem map_id_update_wallet_list (l : List Wallet) (wid : Nat)
    (f : Wallet → Wallet) (hf : ∀ w, (f w).id = w.id) :
    (update_wallet_list l wid f).map (fun w => w.id) = l.map (fun w => w.id) := by
  induction l with
  | nil => rfl
  | cons w ws ih =>
    unfold update_wallet_list at ih ⊢
    simp only [List.map_cons, List.cons.injEq]
    refine ⟨?_, ih⟩
    by_cases h : (w.id == wid) = true
    · simp [h, hf]
    · simp [h]

theorem find_wallet_self {l : List Wallet} {w : Wallet}
    (hnd : (l.map (fun w => w.id)).Nodup) (hm : w ∈ l) :
    l.find? (fun x => x.id == w.id) = some w := by
  induction l with
  | nil => cases hm
  | cons h t ih =>
    simp only [List.map_cons, List.nodup_cons] at hnd
    rcases List.mem_cons.mp hm with rfl | hmt
    · simp [List.find?_cons]
    · have hne : (h.id == w.id) = false := by
        rw [beq_eq_false_iff_ne]
        intro he
        exact hnd.1 (he ▸ List.mem_map_of_mem (fun w => w.id) hmt)
      simp [List.find?_cons, hne, ih hnd.2 hmt]

theorem lock_wallet_ok_elim {db : DB} {acc aid : Nat} {w : Wallet}
    (h : lock_wallet db acc aid = .ok w) :
    w ∈ db.wallets ∧ w.account_id = acc ∧ w.asset_type_id = aid := by
  unfold lock_wallet at h
  cases hf : db.wallets.find?
      (fun w => w.account_id == acc && w.asset_type_id == aid) with
  | none => rw [hf] at h; cases h
  | some w0 =>
    rw [hf] at h
    cases h
    have hp := List.find?_some hf
    simp only [Bool.and_eq_true, beq_iff_eq] at hp
    exact ⟨List.mem_of_find?_eq_some hf, hp.1, hp.2⟩

theorem apply_debit_ok {db : DB} {wid : Nat} {a : Int} {ref : Nat} {ty : String}
    {d k : Option String} {w : Wallet}
    (hw : find_wallet db wid = some w) (hbal : ¬ w.balance - a < 0) :
    apply_debit db wid a ref ty d k =
      .ok ({ db with
        wallets := update_wallet_list db.wallets wid (fun w0 =>
          { w0 with balance := w.balance - a, version := w0.version + 1,
                    updated_at := db.now }),
        transactions := db.transactions ++ [debit_tx_of db wid w.balance a ref ty d k],
        next_id := db.next_id + 1 }, debit_tx_of db wid w.balance a ref ty d k) := by
  unfold apply_debit debit_tx_of
  rw [hw]
  simp [hbal]

theorem apply_credit_ok {db : DB} {wid : Nat} {a : Int} {ref : Nat} {ty : String}
    {d k : Option String} {w : Wallet}
    (hw : find_wallet db wid = some w) :
    apply_credit db wid a ref ty d k =
      .ok ({ db with
        wallets := update_wallet_list db.wallets wid (fun w0 =>
          { w0 with balance := w.balance + a, version := w0.version + 1,
                    updated_at := db.now }),
        transactions := db.transactions ++ [credit_tx_of db wid w.balance a ref ty d k],
        next_id := db.next_id + 1 }, credit_tx_of db wid w.balance a ref ty d k) := by
  unfold apply_credit credit_tx_of
  rw [hw]

theorem find_wallet_eq (db : DB) (wid : Nat) :
    find_wallet db wid = db.wallets.find? (fun w => w.id == wid) := rfl

theorem find_wallet_id_of {db : DB} {wid : Nat} {w : Wallet}
    (h : find_wallet db wid = some w) : w.id = wid := by
  unfold find_wallet at h
  have hp := List.find?_some h
  simpa using hp

theorem find_wallet_mem {db : DB} {wid : Nat} {w : Wallet}
    (h : find_wallet db wid = some w) : w ∈ db.wallets :=
  List.mem_of_find?_eq_some h

theorem apply_pair_ok {db : DB} {src dst : Nat} {a : Int} {ref : Nat}
    {ty : String} {d1 d2 k : Option String} {ws wd : Wallet}
    (hs : find_wallet db src = some ws) (hd : find_wallet db dst = some wd)
    (hbal : ¬ ws.balance - a < 0) :
    apply_pair db src dst a ref ty d1 d2 k =
      .ok (pair_post db src dst ws.balance (bdst_of src dst ws.balance wd.balance a)
            a ref ty d1 d2 k,
        debit_tx_of db src ws.balance a ref ty d1 k,
        credit_tx_of { db with next_id := db.next_id + 1 } dst
          (bdst_of src dst ws.balance wd.balance a) a ref ty d2 k) := by
  have hwdid : wd.id = dst := find_wallet_id_of hd
  unfold apply_pair
  simp only [apply_debit_ok hs hbal]
  have hfind1 : find_wallet { db with
      wallets := update_wallet_list db.wallets src (fun w0 =>
        { w0 with balance := ws.balance - a, version := w0.version + 1,
                  updated_at := db.now }),
      transactions := db.transactions ++ [debit_tx_of db src ws.balance a ref ty d1 k],
      next_id := db.next_id + 1 } dst =
      some (if dst = src
        then { wd with balance := ws.balance - a, version := wd.version + 1,
                       updated_at := db.now }
        else wd) := by
    rw [find_wallet_eq]
    show (update_wallet_list db.wallets src (fun w0 =>
      { w0 with balance := ws.balance - a, version := w0.version + 1,
                updated_at := db.now })).find? (fun w => w.id == dst) = _
    rw [find?_update_wallet_list db.wallets src dst (fun w0 =>
      { w0 with balance := ws.balance - a, version := w0.version + 1,
                updated_at := db.now }) (fun w => rfl)]
    rw [find_wallet_eq] at hd
    rw [hd]
    by_cases hds : dst = src
    · simp [hwdid, hds]
    · simp [hwdid, hds]
  by_cases hds : dst = src
  · rw [if_pos hds] at hfind1
    have hwdws : ws = wd := by
      rw [hds] at hd
      rw [hs] at hd
      injection hd
    subst hwdws
    simp only [apply_credit_ok hfind1]
    subst hds
    simp [pair_post, debit_tx_of, credit_tx_of, bdst_of]
  · rw [if_neg hds] at hfind1
    simp only [apply_credit_ok hfind1]
    simp [pair_post, debit_tx_of, credit_tx_of, bdst_of, hds]

theorem top_up_ok_shape {db : DB} {uid aid : Nat} {a : Int} {pr d k : Option String}
    {db2 : DB} {res : ResultBody} (hwf : db.WF)
    (h : top_up db uid aid a pr d k = .ok (db2, res)) :
    ∃ acct asset treasury ws wd,
      idem_step db k "top_up" = .ok () ∧
      get_active_account db uid = .ok acct ∧
      get_active_asset_type db aid = .ok asset ∧
      get_system_account db "system_treasury" = .ok treasury ∧
      lock_wallet db treasury.id aid = .ok ws ∧
      lock_wallet db uid aid = .ok wd ∧
      ¬ ws.balance < a ∧
      res = { reference_id := db.next_id, transaction_type := "TOPUP", amount := a,
              balance_after := bdst_of ws.id wd.id ws.balance wd.balance a + a,
              message := "Successfully credited " ++ toString a ++ " " ++
                asset.symbol ++ " to your wallet." } ∧
      db2 = maybe_store_idempotency
        (pair_post { db with next_id := db.next_id + 1 } ws.id wd.id ws.balance
          (bdst_of ws.id wd.id ws.balance wd.balance a) a db.next_id "TOPUP"
          (some ("Treasury debit for top-up: " ++ py_str_or d ""))
          (some (py_str_or d ("Top-up of " ++ toString a ++ " " ++ asset.symbol)))
          k) k "top_up" res := by
  unfold top_up at h
  split at h
  next e heq => exact Except.noConfusion h
  next u heq1 =>
  cases u
  split at h
  next e heq => exact Except.noConfusion h
  next acct heq2 =>
  split at h
  next e heq => exact Except.noConfusion h
  next asset heq3 =>
  split at h
  next e heq => exact Except.noConfusion h
  next treasury heq4 =>
  split at h
  next e heq => exact Except.noConfusion h
  next ws heq5 =>
  split at h
  next e heq => exact Except.noConfusion h
  next wd heq6 =>
  split at h
  next hbal => exact Except.noConfusion h
  next hbal =>
  -- success region: rewrite apply_pair via its characterization
  have hwsmem := lock_wallet_ok_elim heq5
  have hwdmem := lock_wallet_ok_elim heq6
  have hfs : find_wallet db ws.id = some ws := find_wallet_self hwf.1 hwsmem.1
  have hfd : find_wallet db wd.id = some wd := find_wallet_self hwf.1 hwdmem.1
  have hfs0 : find_wallet { db with next_id := db.next_id + 1 } ws.id = some ws := hfs
  have hfd0 : find_wallet { db with next_id := db.next_id + 1 } wd.id = some wd := hfd
  have hbal2 : ¬ ws.balance - a < 0 := by
    intro hc
    exact hbal (by omega)
  simp only [apply_pair_ok hfs0 hfd0 hbal2, credit_tx_of, Except.ok.injEq,
    Prod.mk.injEq] at h
  obtain ⟨hdb2, hres⟩ := h
  refine ⟨acct, asset, treasury, ws, wd, heq1, heq2, heq3, heq4, heq5, heq6, hbal,
    hres.symm, ?_⟩
  rw [← hdb2, ← hres]

theorem issue_bonus_ok_shape {db : DB} {uid aid : Nat} {a : Int}
    {pr d k : Option String} {db2 : DB} {res : ResultBody} (hwf : db.WF)
    (h : issue_bonus db uid aid a pr d k = .ok (db2, res)) :
    ∃ acct asset bonus_pool ws wd,
      idem_step db k "issue_bonus" = .ok () ∧
      get_active_account db uid = .ok acct ∧
      get_active_asset_type db aid = .ok asset ∧
      get_system_account db "system_bonus_pool" = .ok bonus_pool ∧
      lock_wallet db bonus_pool.id aid = .ok ws ∧
      lock_wallet db uid aid = .ok wd ∧
      ¬ ws.balance < a ∧
      res = { reference_id := db.next_id, transaction_type := "BONUS", amount := a,
              balance_after := bdst_of ws.id wd.id ws.balance wd.balance a + a,
              message := "Bonus of " ++ toString a ++ " " ++ asset.symbol ++
                " issued successfully." } ∧
      db2 = maybe_store_idempotency
        (pair_post { db with next_id := db.next_id + 1 } ws.id wd.id ws.balance
          (bdst_of ws.id wd.id ws.balance wd.balance a) a db.next_id "BONUS"
          (some ("Bonus pool debit: " ++ py_str_or pr ""))
          (some (py_str_or d ("Bonus: " ++ py_str_or pr "system grant" ++ " — " ++
            toString a ++ " " ++ asset.symbol)))
          k) k "issue_bonus" res := by
  unfold issue_bonus at h
  split at h
  next e heq => exact Except.noConfusion h
  next u heq1 =>
  cases u
  split at h
  next e heq => exact Except.noConfusion h
  next acct heq2 =>
  split at h
  next e heq => exact Except.noConfusion h
  next asset heq3 =>
  split at h
  next e heq => exact Except.noConfusion h
  next bonus_pool heq4 =>
  split at h
  next e heq => exact Except.noConfusion h
  next ws heq5 =>
  split at h
  next e heq => exact Except.noConfusion h
  next wd heq6 =>
  split at h
  next hbal => exact Except.noConfusion h
  next hbal =>
  have hwsmem := lock_wallet_ok_elim heq5
  have hwdmem := lock_wallet_ok_elim heq6
  have hfs : find_wallet db ws.id = some ws := find_wallet_self hwf.1 hwsmem.1
  have hfd : find_wallet db wd.id = some wd := find_wallet_self hwf.1 hwdmem.1
  have hfs0 : find_wallet { db with next_id := db.next_id + 1 } ws.id = some ws := hfs
  have hfd0 : find_wallet { db with next_id := db.next_id + 1 } wd.id = some wd := hfd
  have hbal2 : ¬ ws.balance - a < 0 := by
    intro hc
    exact hbal (by omega)
  simp only [apply_pair_ok hfs0 hfd0 hbal2, credit_tx_of, Except.ok.injEq,
    Prod.mk.injEq] at h
  obtain ⟨hdb2, hres⟩ := h
  refine ⟨acct, asset, bonus_pool, ws, wd, heq1, heq2, heq3, heq4, heq5, heq6, hbal,
    hres.symm, ?_⟩
  rw [← hdb2, ← hres]

theorem spend_ok_shape {db : DB} {uid aid : Nat} {a : Int}
    {pr d k : Option String} {db2 : DB} {res : ResultBody} (hwf : db.WF)
    (h : spend db uid aid a pr d k = .ok (db2, res)) :
    ∃ acct asset revenue ws wd,
      idem_step db k "spend" = .ok () ∧
      get_active_account db uid = .ok acct ∧
      get_active_asset_type db aid = .ok asset ∧
      get_system_account db "system_revenue" = .ok revenue ∧
      lock_wallet db uid aid = .ok ws ∧
      lock_wallet db revenue.id aid = .ok wd ∧
      ¬ ws.balance < a ∧
      res = { reference_id := db.next_id, transaction_type := "SPEND", amount := a,
              balance_after := ws.balance - a,
              message := "Successfully spent " ++ toString a ++ " " ++
                asset.symbol ++ "." } ∧
      db2 = maybe_store_idempotency
        (pair_post { db with next_id := db.next_id + 1 } ws.id wd.id ws.balance
          (bdst_of ws.id wd.id ws.balance wd.balance a) a db.next_id "SPEND"
          (some (py_str_or d ("Spent " ++ toString a ++ " " ++ asset.symbol)))
          (some ("Revenue credit from spend: " ++ py_str_or pr ""))
          k) k "spend" res := by
  unfold spend at h
  split at h
  next e heq => exact Except.noConfusion h
  next u heq1 =>
  cases u
  split at h
  next e heq => exact Except.noConfusion h
  next acct heq2 =>
  split at h
  next e heq => exact Except.noConfusion h
  next asset heq3 =>
  split at h
  next e heq => exact Except.noConfusion h
  next revenue heq4 =>
  split at h
  next e heq => exact Except.noConfusion h
  next ws heq5 =>
  split at h
  next hbal => exact Except.noConfusion h
  next hbal =>
  split at h
  next e heq => exact Except.noConfusion h
  next wd heq6 =>
  have hwsmem := lock_wallet_ok_elim heq5
  have hwdmem := lock_wallet_ok_elim heq6
  have hfs : find_wallet db ws.id = some ws := find_wallet_self hwf.1 hwsmem.1
  have hfd : find_wallet db wd.id = some wd := find_wallet_self hwf.1 hwdmem.1
  have hfs0 : find_wallet { db with next_id := db.next_id + 1 } ws.id = some ws := hfs
  have hfd0 : find_wallet { db with next_id := db.next_id + 1 } wd.id = some wd := hfd
  have hbal2 : ¬ ws.balance - a < 0 := by
    intro hc
    exact hbal (by omega)
  simp only [apply_pair_ok hfs0 hfd0 hbal2, debit_tx_of, Except.ok.injEq,
    Prod.mk.injEq] at h
  obtain ⟨hdb2, hres⟩ := h
  refine ⟨acct, asset, revenue, ws, wd, heq1, heq2, heq3, heq4, heq5, heq6, hbal,
    hres.symm, ?_⟩
  rw [← hdb2, ← hres]

theorem maybe_store_transactions (db : DB) (k : Option String) (ep : String)
    (res : ResultBody) :
    (maybe_store_idempotency db k ep res).transactions = db.transactions := by
  unfold maybe_store_idempotency store_idempotency
  cases k with
  | none => rfl
  | some s =>
    dsimp only
    split
    · rfl
    · rfl

theorem maybe_store_wallets (db : DB) (k : Option String) (ep : String)
    (res : ResultBody) :
    (maybe_store_idempotency db k ep res).wallets = db.wallets := by
  unfold maybe_store_idempotency store_idempotency
  cases k with
  | none => rfl
  | some s =>
    dsimp only
    split
    · rfl
    · rfl

theorem store_idem_keys_some (db : DB) (s : String) (hs : ¬ (s == "") = true)
    (ep : String) (res : ResultBody) :
    (maybe_store_idempotency db (some s) ep res).idempotency_keys =
      db.idempotency_keys ++
        [{ key := s, endpoint := ep, response_body := res,
           created_at := db.now, expires_at := db.now + 24 }] := by
  unfold maybe_store_idempotency store_idempotency resolve_ttl
  simp [hs]

theorem pair_post_transactions (db0 : DB) (src dst : Nat) (bsrc bdst a : Int)
    (ref : Nat) (ty : String) (d1 d2 k : Option String) :
    (pair_post db0 src dst bsrc bdst a ref ty d1 d2 k).transactions =
      db0.transactions ++
        [debit_tx_of db0 src bsrc a ref ty d1 k,
         credit_tx_of { db0 with next_id := db0.next_id + 1 } dst bdst a ref ty d2 k] :=
  rfl

theorem pair_post_idem_keys (db0 : DB) (src dst : Nat) (bsrc bdst a : Int)
    (ref : Nat) (ty : String) (d1 d2 k : Option String) :
    (pair_post db0 src dst bsrc bdst a ref ty d1 d2 k).idempotency_keys =
      db0.idempotency_keys :=
  rfl

/-- Wallet table of a committed flow, seen through `find_wallet`: the source
row is debited, the destination row is credited (possibly both on the same
row), every other row is untouched. -/
theorem flow_post_find_wallet (db0 : DB) (src dst : Nat) (bsrc bdst a : Int)
    (ref : Nat) (ty ep : String) (d1 d2 k kk : Option String) (res : ResultBody)
    (wid : Nat) :
    find_wallet
      (maybe_store_idempotency (pair_post db0 src dst bsrc bdst a ref ty d1 d2 k)
        kk ep res) wid =
      (find_wallet db0 wid).map (fun w =>
        (fun w1 => if w1.id == dst then
            { w1 with balance := bdst + a, version := w1.version + 1,
                      updated_at := db0.now }
          else w1)
        ((fun w0 => if w0.id == src then
            { w0 with balance := bsrc - a, version := w0.version + 1,
                      updated_at := db0.now }
          else w0) w)) := by
  rw [find_wallet_eq, maybe_store_wallets]
  show (update_wallet_list (update_wallet_list db0.wallets src _) dst _).find?
    (fun w => w.id == wid) = _
  rw [find?_update_wallet_list
    (update_wallet_list db0.wallets src (fun w0 =>
      { w0 with balance := bsrc - a, version := w0.version + 1,
                updated_at := db0.now }))
    dst wid
    (fun w1 => { w1 with balance := bdst + a, version := w1.version + 1,
                         updated_at := db0.now })
    (fun w => rfl)]
  rw [find?_update_wallet_list db0.wallets src wid
    (fun w0 => { w0 with balance := bsrc - a, version := w0.version + 1,
                         updated_at := db0.now })
    (fun w => rfl)]
  rw [← find_wallet_eq, Option.map_map]
  rfl

/-- Core of claim C1, shared by the three flows: properties of the balanced
debit/credit pair appended by a committed flow whose source wallet was locked
for account `s_acc` and destination wallet for account `d_acc`. -/
theorem balanced_pair_core {db db2 : DB} {s_acc d_acc aid : Nat} {a : Int}
    {ty ep : String} {d1 d2 k : Option String} {res : ResultBody}
    {ws wd : Wallet} (hwf : db.WF)
    (hls : lock_wallet db s_acc aid = .ok ws)
    (hld : lock_wallet db d_acc aid = .ok wd)
    (hdb2 : db2 = maybe_store_idempotency
      (pair_post { db with next_id := db.next_id + 1 } ws.id wd.id ws.balance
        (bdst_of ws.id wd.id ws.balance wd.balance a) a db.next_id ty d1 d2 k)
      k ep res) :
    (s_acc ≠ d_acc → ws.id ≠ wd.id) ∧
    ∃ tdeb tcred,
      db2.transactions = db.transactions ++ [tdeb, tcred] ∧
      tdeb.reference_id = db.next_id ∧ tcred.reference_id = db.next_id ∧
      (∀ t ∈ db.transactions, t.reference_id ≠ db.next_id) ∧
      tdeb.amount = -a ∧ tcred.amount = a ∧ tdeb.amount + tcred.amount = 0 ∧
      tdeb.wallet_id = ws.id ∧ tcred.wallet_id = wd.id ∧
      tdeb.balance_after = ws.balance - a ∧
      (∃ w1, find_wallet db2 wd.id = some w1 ∧ w1.balance = tcred.balance_after) ∧
      (ws.id ≠ wd.id →
        tcred.balance_after = wd.balance + a ∧
        ∃ w0, find_wallet db2 ws.id = some w0 ∧ w0.balance = tdeb.balance_after) := by
  have hes := lock_wallet_ok_elim hls
  have hed := lock_wallet_ok_elim hld
  have hfs : find_wallet db ws.id = some ws := find_wallet_self hwf.1 hes.1
  have hfd : find_wallet db wd.id = some wd := find_wallet_self hwf.1 hed.1
  have hfs0 : find_wallet { db with next_id := db.next_id + 1 } ws.id = some ws := hfs
  have hfd0 : find_wallet { db with next_id := db.next_id + 1 } wd.id = some wd := hfd
  constructor
  · intro hacc hid
    have hw : ws = wd := List.inj_on_of_nodup_map hwf.1 hes.1 hed.1 hid
    exact hacc (by rw [← hes.2.1, ← hed.2.1, hw])
  refine ⟨debit_tx_of { db with next_id := db.next_id + 1 } ws.id ws.balance a
      db.next_id ty d1 k,
    credit_tx_of { db with next_id := db.next_id + 2 } wd.id
      (bdst_of ws.id wd.id ws.balance wd.balance a) a db.next_id ty d2 k,
    ?_, rfl, rfl, ?_, rfl, rfl, by simp [debit_tx_of, credit_tx_of], rfl, rfl,
    rfl, ?_, ?_⟩
  · rw [hdb2, maybe_store_transactions, pair_post_transactions]
  · intro t ht he
    have := hwf.2.1 t ht
    omega
  · rw [hdb2, flow_post_find_wallet]
    rw [hfd0]
    by_cases hi : (wd.id == ws.id) = true
    · simp [hi, credit_tx_of, bdst_of, beq_iff_eq.mp hi]
    · simp [hi, credit_tx_of, bdst_of, ne_of_beq_false (Bool.not_eq_true _ ▸ hi)]
  · intro hne
    have hne2 : wd.id ≠ ws.id := Ne.symm hne
    constructor
    · simp [credit_tx_of, bdst_of, hne2]
    · rw [hdb2, flow_post_find_wallet]
      rw [hfs0]
      have hne3 : (ws.id == wd.id) = false := by
        rw [beq_eq_false_iff_ne]
        exact hne
      simp [hne3, hne, debit_tx_of]

/-- C1 (amended): every committed mutating flow appends exactly two ledger
entries sharing one freshly drawn `reference_id`, a `-amount` debit on the
endpoint's source wallet and a `+amount` credit on the endpoint's destination
wallet, each `balance_after` matching the wallet balance right after the
entry applies; the two wallets are distinct whenever the requested user
account is not the endpoint's own system counterparty (the code does not
forbid naming the counterparty as the user, in which case both entries land
on that one wallet — see `c1_counterexample`). -/
theorem c1_two_entries_balanced (tag : FlowTag) (db : DB) (uid aid : Nat)
    (a : Int) (extra d k : Option String) (db2 : DB) (res : ResultBody)
    (hwf : db.WF) (ha : 0 < a)
    (hok : run_flow tag db uid aid a extra d k = .ok (db2, res)) :
    ∃ sys_acct src_w dst_w,
      get_system_account db (counterparty_of tag) = .ok sys_acct ∧
      lock_wallet db (flow_src_dst tag sys_acct.id uid).1 aid = .ok src_w ∧
      lock_wallet db (flow_src_dst tag sys_acct.id uid).2 aid = .ok dst_w ∧
      (uid ≠ sys_acct.id → src_w.id ≠ dst_w.id) ∧
      ∃ tdeb tcred,
        db2.transactions = db.transactions ++ [tdeb, tcred] ∧
        tdeb.reference_id = db.next_id ∧ tcred.reference_id = db.next_id ∧
        (∀ t ∈ db.transactions, t.reference_id ≠ db.next_id) ∧
        tdeb.amount = -a ∧ tcred.amount = a ∧ tdeb.amount + tcred.amount = 0 ∧
        tdeb.wallet_id = src_w.id ∧ tcred.wallet_id = dst_w.id ∧
        tdeb.balance_after = src_w.balance - a ∧
        (∃ w1, find_wallet db2 dst_w.id = some w1 ∧
          w1.balance = tcred.balance_after) ∧
        (src_w.id ≠ dst_w.id →
          tcred.balance_after = dst_w.balance + a ∧
          ∃ w0, find_wallet db2 src_w.id = some w0 ∧
            w0.balance = tdeb.balance_after) := by
  cases tag with
  | topup =>
    have hok2 : top_up db uid aid a extra d k = .ok (db2, res) := hok
    obtain ⟨acct, asset, sys, ws, wd, h1, h2, h3, h4, h5, h6, h7, hres, hdb2⟩ :=
      top_up_ok_shape hwf hok2
    have hcore := balanced_pair_core hwf h5 h6 hdb2
    exact ⟨sys, ws, wd, h4, h5, h6, fun hne => hcore.1 (Ne.symm hne), hcore.2⟩
  | bonus =>
    have hok2 : issue_bonus db uid aid a extra d k = .ok (db2, res) := hok
    obtain ⟨acct, asset, sys, ws, wd, h1, h2, h3, h4, h5, h6, h7, hres, hdb2⟩ :=
      issue_bonus_ok_shape hwf hok2
    have hcore := balanced_pair_core hwf h5 h6 hdb2
    exact ⟨sys, ws, wd, h4, h5, h6, fun hne => hcore.1 (Ne.symm hne), hcore.2⟩
  | spend_flow =>
    have hok2 : spend db uid aid a extra d k = .ok (db2, res) := hok
    obtain ⟨acct, asset, sys, ws, wd, h1, h2, h3, h4, h5, h6, h7, hres, hdb2⟩ :=
      spend_ok_shape hwf hok2
    have hcore := balanced_pair_core hwf h5 h6 hdb2
    exact ⟨sys, ws, wd, h4, h5, h6, fun hne => hcore.1 hne, hcore.2⟩

/-- C1 counterexample: nothing stops a caller from naming the treasury
account itself (`account id 1`) as the `user_account_id` of a top-up.  The
flow commits and appends its two balanced entries, but both land on the same
wallet (id 100, the treasury wallet): the claim's "on two distinct wallets"
fails at this input. -/
theorem c1_counterexample :
    ∃ db2 res, run_flow .topup demo_db 1 10 100 none none none = .ok (db2, res) ∧
      db2.transactions.map (fun t => (t.wallet_id, t.amount)) =
        [(100, -100), (100, 100)] :=
  ⟨_, _, rfl, rfl⟩

/-- Witness for C1: the amended theorem applied to the seed state at a normal
top-up (alice, 100 GC). -/
theorem c1_witness :
    DB.WF demo_db ∧ (0 : Int) < 100 ∧
    ∃ db2 res, run_flow .topup demo_db 4 10 100 none none none = .ok (db2, res) ∧
      ∃ sys_acct src_w dst_w,
        get_system_account demo_db (counterparty_of .topup) = .ok sys_acct ∧
        lock_wallet demo_db (flow_src_dst .topup sys_acct.id 4).1 10 = .ok src_w ∧
        lock_wallet demo_db (flow_src_dst .topup sys_acct.id 4).2 10 = .ok dst_w ∧
        (4 ≠ sys_acct.id → src_w.id ≠ dst_w.id) ∧
        ∃ tdeb tcred,
          db2.transactions = demo_db.transactions ++ [tdeb, tcred] ∧
          tdeb.reference_id = demo_db.next_id ∧
          tcred.reference_id = demo_db.next_id ∧
          (∀ t ∈ demo_db.transactions, t.reference_id ≠ demo_db.next_id) ∧
          tdeb.amount = -100 ∧ tcred.amount = 100 ∧
          tdeb.amount + tcred.amount = 0 ∧
          tdeb.wallet_id = src_w.id ∧ tcred.wallet_id = dst_w.id ∧
          tdeb.balance_after = src_w.balance - 100 ∧
          (∃ w1, find_wallet db2 dst_w.id = some w1 ∧
            w1.balance = tcred.balance_after) ∧
          (src_w.id ≠ dst_w.id →
            tcred.balance_after = dst_w.balance + 100 ∧
            ∃ w0, find_wallet db2 src_w.id = some w0 ∧
              w0.balance = tdeb.balance_after) :=
  ⟨by decide, by decide,
    ⟨_, _, rfl, c1_two_entries_balanced .topup demo_db 4 10 100 none none none
      _ _ (by decide) (by decide) rfl⟩⟩

theorem apply_debit_error_kind {db : DB} {wid : Nat} {a : Int} {ref : Nat}
    {ty : String} {d k : Option String} {e : Err}
    (h : apply_debit db wid a ref ty d k = .error e) :
    e = .internal_model_error ∨ ∃ b, e = .negative_balance wid b := by
  unfold apply_debit at h
  simp only [] at h
  split at h
  · exact Or.inl (Except.error.injEq _ _ ▸ h).symm
  · split at h
    · exact Or.inr ⟨_, (Except.error.injEq _ _ ▸ h).symm⟩
    · exact Except.noConfusion h

theorem apply_credit_error_kind {db : DB} {wid : Nat} {a : Int} {ref : Nat}
    {ty : String} {d k : Option String} {e : Err}
    (h : apply_credit db wid a ref ty d k = .error e) :
    e = .internal_model_error := by
  unfold apply_credit at h
  simp only [] at h
  split at h
  · exact (Except.error.injEq _ _ ▸ h).symm
  · exact Except.noConfusion h

theorem apply_pair_error_kind {db : DB} {src dst : Nat} {a : Int} {ref : Nat}
    {ty : String} {d1 d2 k : Option String} {e : Err}
    (h : apply_pair db src dst a ref ty d1 d2 k = .error e) :
    e = .internal_model_error ∨ ∃ wid b, e = .negative_balance wid b := by
  unfold apply_pair at h
  split at h
  next heq =>
    rcases apply_debit_error_kind heq with h1 | ⟨b, h1⟩
    · exact Or.inl ((Except.error.injEq _ _ ▸ h).symm.trans h1)
    · exact Or.inr ⟨src, b, ((Except.error.injEq _ _ ▸ h).symm.trans h1)⟩
  next db1 tx heq =>
    split at h
    next heq2 =>
      exact Or.inl ((Except.error.injEq _ _ ▸ h).symm.trans
        (apply_credit_error_kind heq2))
    next heq2 => exact Except.noConfusion h

/-- C2: once a mutating flow has passed idempotency, validation and wallet
locking, a source balance strictly below the requested amount fails the
request with 402 `INSUFFICIENT_FUNDS` carrying the source balance, the
amount and the asset symbol, and the rolled-back state is exactly the
pre-request state (no balance change, no ledger row); with a sufficient
balance the flow never raises `InsufficientFundsError`. -/
theorem c2_insufficient_funds (tag : FlowTag) (db : DB) (uid aid : Nat)
    (a : Int) (extra d k : Option String) (acct : Account) (asset : AssetType)
    (sys_acct : Account) (src_w dst_w : Wallet)
    (hidem : idem_step db k (endpoint_of tag) = .ok ())
    (hacct : get_active_account db uid = .ok acct)
    (hasset : get_active_asset_type db aid = .ok asset)
    (hsys : get_system_account db (counterparty_of tag) = .ok sys_acct)
    (hls : lock_wallet db (flow_src_dst tag sys_acct.id uid).1 aid = .ok src_w)
    (hld : lock_wallet db (flow_src_dst tag sys_acct.id uid).2 aid = .ok dst_w) :
    (src_w.balance < a →
      route_flow tag db uid aid a extra d k =
        (db, .failure 402 "INSUFFICIENT_FUNDS"
          (.insufficient_funds src_w.balance a asset.symbol))) ∧
    (¬ src_w.balance < a →
      ∀ b r s, run_flow tag db uid aid a extra d k ≠
        .error (.insufficient_funds b r s)) := by
  cases tag with
  | topup =>
    simp only [endpoint_of] at hidem
    simp only [counterparty_of] at hsys
    simp only [flow_src_dst] at hls hld
    constructor
    · intro hlt
      simp only [route_flow, run_flow, top_up, hidem, hacct, hasset, hsys, hls,
        hld, if_pos hlt, route_mutating, handle_service_errors]
    · intro hge b r s hcontra
      simp only [run_flow, top_up, hidem, hacct, hasset, hsys, hls, hld,
        if_neg hge] at hcontra
      cases happ : apply_pair { db with next_id := db.next_id + 1 } src_w.id
          dst_w.id a db.next_id "TOPUP"
          (some ("Treasury debit for top-up: " ++ py_str_or d ""))
          (some (py_str_or d ("Top-up of " ++ toString a ++ " " ++ asset.symbol)))
          k with
      | error e =>
        rw [happ] at hcontra
        simp only [] at hcontra
        rcases apply_pair_error_kind (happ.trans (congrArg Except.error
          (Except.error.injEq _ _ ▸ hcontra))) with h1 | ⟨wid, bb, h1⟩ <;>
          exact Err.noConfusion h1
      | ok p =>
        obtain ⟨db1, t1, t2⟩ := p
        rw [happ] at hcontra
        simp at hcontra
  | bonus =>
    simp only [endpoint_of] at hidem
    simp only [counterparty_of] at hsys
    simp only [flow_src_dst] at hls hld
    constructor
    · intro hlt
      simp only [route_flow, run_flow, issue_bonus, hidem, hacct, hasset, hsys,
        hls, hld, if_pos hlt, route_mutating, handle_service_errors]
    · intro hge b r s hcontra
      simp only [run_flow, issue_bonus, hidem, hacct, hasset, hsys, hls, hld,
        if_neg hge] at hcontra
      cases happ : apply_pair { db with next_id := db.next_id + 1 } src_w.id
          dst_w.id a db.next_id "BONUS"
          (some ("Bonus pool debit: " ++ py_str_or extra ""))
          (some (py_str_or d ("Bonus: " ++ py_str_or extra "system grant" ++
            " — " ++ toString a ++ " " ++ asset.symbol)))
          k with
      | error e =>
        rw [happ] at hcontra
        simp only [] at hcontra
        rcases apply_pair_error_kind (happ.trans (congrArg Except.error
          (Except.error.injEq _ _ ▸ hcontra))) with h1 | ⟨wid, bb, h1⟩ <;>
          exact Err.noConfusion h1
      | ok p =>
        obtain ⟨db1, t1, t2⟩ := p
        rw [happ] at hcontra
        simp at hcontra
  | spend_flow =>
    simp only [endpoint_of] at hidem
    simp only [counterparty_of] at hsys
    simp only [flow_src_dst] at hls hld
    constructor
    · intro hlt
      simp only [route_flow, run_flow, spend, hidem, hacct, hasset, hsys, hls,
        if_pos hlt, route_mutating, handle_service_errors]
    · intro hge b r s hcontra
      simp only [run_flow, spend, hidem, hacct, hasset, hsys, hls, hld,
        if_neg hge] at hcontra
      cases happ : apply_pair { db with next_id := db.next_id + 1 } src_w.id
          dst_w.id a db.next_id "SPEND"
          (some (py_str_or d ("Spent " ++ toString a ++ " " ++ asset.symbol)))
          (some ("Revenue credit from spend: " ++ py_str_or extra ""))
          k with
      | error e =>
        rw [happ] at hcontra
        simp only [] at hcontra
        rcases apply_pair_error_kind (happ.trans (congrArg Except.error
          (Except.error.injEq _ _ ▸ hcontra))) with h1 | ⟨wid, bb, h1⟩ <;>
          exact Err.noConfusion h1
      | ok p =>
        obtain ⟨db1, t1, t2⟩ := p
        rw [happ] at hcontra
        simp at hcontra

/-- Witness for C2: spec §8 scenario 4 — `spend(alice, GC, 999999)` from
balance 500 is refused with 402 `INSUFFICIENT_FUNDS(500, 999999, "GC")` and
the store is exactly the pre-request state. -/
theorem c2_witness :
    route_flow .spend_flow demo_db 4 10 999999 none none none =
      (demo_db, .failure 402 "INSUFFICIENT_FUNDS"
        (.insufficient_funds 500 999999 "GC")) :=
  (c2_insufficient_funds .spend_flow demo_db 4 10 999999 none none none
    { id := 4, username := "alice", is_system := false, is_active := true }
    { id := 10, name := "Gold Coins", symbol := "GC", is_active := true }
    { id := 3, username := "system_revenue", is_system := true, is_active := true }
    { id := 103, account_id := 4, asset_type_id := 10, balance := 500,
      version := 0, updated_at := 0 }
    { id := 102, account_id := 3, asset_type_id := 10, balance := 0,
      version := 0, updated_at := 0 }
    rfl rfl rfl rfl rfl rfl).1 (by decide)

/-- An idempotency-step failure short-circuits the whole flow: the error of
`_check_idempotency` is the flow's result (it is raised before any other
step runs). -/
theorem run_flow_idem_error (tag : FlowTag) (db : DB) (uid aid : Nat) (a : Int)
    (extra d k : Option String) (e : Err)
    (h : idem_step db k (endpoint_of tag) = .error e) :
    run_flow tag db uid aid a extra d k = .error e := by
  cases tag with
  | topup =>
    simp only [endpoint_of] at h
    simp only [run_flow, top_up, h]
  | bonus =>
    simp only [endpoint_of] at h
    simp only [run_flow, issue_bonus, h]
  | spend_flow =>
    simp only [endpoint_of] at h
    simp only [run_flow, spend, h]

/-- A (truthy) idempotency key that passed the miss check has no record in
`idempotency_keys`. -/
theorem idem_ok_find_none {db : DB} {s ep : String} (hs : ¬ (s == "") = true)
    (h : idem_step db (some s) ep = .ok ()) :
    db.idempotency_keys.find? (fun r => r.key == s) = none := by
  unfold idem_step at h
  simp only [] at h
  rw [if_neg hs] at h
  cases hc : check_idempotency db s ep with
  | error e => rw [hc] at h; exact Except.noConfusion h
  | ok o =>
    rw [hc] at h
    cases o with
    | some cached => exact Except.noConfusion h
    | none =>
      unfold check_idempotency at hc
      split at hc
      next heq => exact heq
      next record heq =>
        split at hc
        · exact Except.noConfusion hc
        · simp at hc

/-- Replaying a key whose record is durably stored takes the
`DuplicateIdempotentRequestError` path. -/
theorem replay_core {db db2 : DB} {s ep : String} {res : ResultBody}
    (hs2 : ¬ (s == "") = true)
    (hfindnone : db.idempotency_keys.find? (fun r => r.key == s) = none)
    (hkeys : db2.idempotency_keys = db.idempotency_keys ++
      [{ key := s, endpoint := ep, response_body := res, created_at := db.now,
         expires_at := db.now + 24 }]) :
    idem_step db2 (some s) ep = .error (.duplicate_idempotent_request s res) := by
  have hfind2 : db2.idempotency_keys.find? (fun r => r.key == s) =
      some { key := s, endpoint := ep, response_body := res,
             created_at := db.now, expires_at := db.now + 24 } := by
    rw [hkeys, List.find?_append, hfindnone]
    simp
  unfold idem_step
  simp only []
  rw [if_neg hs2]
  unfold check_idempotency
  rw [hfind2]
  simp

/-- C3: once a mutating flow has committed under a (truthy) idempotency key,
any replay of that key against the same endpoint — with arbitrary request
fields — returns the stored response body with no change whatsoever to the
store; iterating the replay any number of times still leaves the store
unchanged, so at most one committed operation ever produces side effects
under the key. -/
theorem c3_replay_no_side_effects (tag : FlowTag) (db : DB) (uid aid : Nat)
    (a : Int) (extra d : Option String) (s : String) (hs : s ≠ "")
    (db2 : DB) (res : ResultBody) (hwf : db.WF)
    (hok : run_flow tag db uid aid a extra d (some s) = .ok (db2, res)) :
    (∀ uid2 aid2 a2 extra2 d2,
      route_flow tag db2 uid2 aid2 a2 extra2 d2 (some s) =
        (db2, .success 201 res)) ∧
    (∀ n uid2 aid2 a2 extra2 d2,
      (fun st => (route_flow tag st uid2 aid2 a2 extra2 d2 (some s)).1)^[n] db2 =
        db2) := by
  have hs2 : ¬ (s == "") = true := by simp [hs]
  have hidem2 : idem_step db2 (some s) (endpoint_of tag) =
      .error (.duplicate_idempotent_request s res) := by
    cases tag with
    | topup =>
      have hok2 : top_up db uid aid a extra d (some s) = .ok (db2, res) := hok
      obtain ⟨acct, asset, sys, ws, wd, h1, h2, h3, h4, h5, h6, h7, hres, hdb2⟩ :=
        top_up_ok_shape hwf hok2
      refine replay_core hs2 (idem_ok_find_none hs2 h1) ?_
      rw [hdb2, store_idem_keys_some _ _ hs2, pair_post_idem_keys]
      rfl
    | bonus =>
      have hok2 : issue_bonus db uid aid a extra d (some s) = .ok (db2, res) := hok
      obtain ⟨acct, asset, sys, ws, wd, h1, h2, h3, h4, h5, h6, h7, hres, hdb2⟩ :=
        issue_bonus_ok_shape hwf hok2
      refine replay_core hs2 (idem_ok_find_none hs2 h1) ?_
      rw [hdb2, store_idem_keys_some _ _ hs2, pair_post_idem_keys]
      rfl
    | spend_flow =>
      have hok2 : spend db uid aid a extra d (some s) = .ok (db2, res) := hok
      obtain ⟨acct, asset, sys, ws, wd, h1, h2, h3, h4, h5, h6, h7, hres, hdb2⟩ :=
        spend_ok_shape hwf hok2
      refine replay_core hs2 (idem_ok_find_none hs2 h1) ?_
      rw [hdb2, store_idem_keys_some _ _ hs2, pair_post_idem_keys]
      rfl
  have hrepl : ∀ uid2 aid2 a2 extra2 d2,
      route_flow tag db2 uid2 aid2 a2 extra2 d2 (some s) =
        (db2, .success 201 res) := by
    intro uid2 aid2 a2 extra2 d2
    have hrun2 := run_flow_idem_error tag db2 uid2 aid2 a2 extra2 d2 (some s)
      (.duplicate_idempotent_request s res) hidem2
    simp only [route_flow, hrun2, route_mutating]
  refine ⟨hrepl, ?_⟩
  intro n uid2 aid2 a2 extra2 d2
  induction n with
  | zero => rfl
  | succ m ih =>
    rw [Function.iterate_succ_apply]
    have hfix : (route_flow tag db2 uid2 aid2 a2 extra2 d2 (some s)).1 = db2 := by
      rw [hrepl uid2 aid2 a2 extra2 d2]
    rw [hfix]
    exact ih

/-- Witness for C3: spec §8 scenario 2 — a top-up for alice under key `K1`,
then replaying `K1` returns the cached body with the store unchanged. -/
theorem c3_witness :
    ∃ db2 res,
      run_flow .topup demo_db 4 10 100 none none (some "K1") = .ok (db2, res) ∧
      (∀ uid2 aid2 a2 extra2 d2,
        route_flow .topup db2 uid2 aid2 a2 extra2 d2 (some "K1") =
          (db2, .success 201 res)) ∧
      (∀ n uid2 aid2 a2 extra2 d2,
        (fun st => (route_flow .topup st uid2 aid2 a2 extra2 d2
          (some "K1")).1)^[n] db2 = db2) :=
  ⟨_, _, rfl, c3_replay_no_side_effects .topup demo_db 4 10 100 none none "K1"
    (by decide) _ _ (by decide) rfl⟩

/-- C4 (code bug): `_check_idempotency` selects by `key` alone and never
reads `expires_at`, so a record that expired long ago (`expires_at = 10`
versus `now = 50`) is still returned as a hit and the flow replays the stale
cached body instead of executing afresh.  The model stores `expires_at`
exactly as `_store_idempotency` computes it; the claim's Miss behaviour for
expired records appears nowhere in the source. -/
theorem c4_expired_record_still_hit :
    (∀ r ∈ expired_db.idempotency_keys, r.expires_at < expired_db.now) ∧
    check_idempotency expired_db "K1" "top_up" = .ok (some demo_cached_body) ∧
    route_flow .topup expired_db 4 10 100 none none (some "K1") =
      (expired_db, .success 201 demo_cached_body) :=
  ⟨by decide, rfl, rfl⟩

/-- C5 (code bug): a replay under an idempotency key returns the cached body
through `return TransactionResponse(**e.cached_response)` — a plain pydantic
model under a route decorated `status_code=201`, so FastAPI serves it with
status 201, not the 200 the spec (and the repo's own
`test_topup_idempotency_header`) requires. -/
theorem c5_replay_status_is_201 :
    ∃ db2 res,
      run_flow .topup demo_db 4 10 50 none none (some "K5") = .ok (db2, res) ∧
      route_flow .topup demo_db 4 10 50 none none (some "K5") =
        (db2, .success 201 res) ∧
      route_flow .topup db2 4 10 50 none none (some "K5") =
        (db2, .success 201 res) ∧
      (201 : Nat) ≠ 200 :=
  ⟨_, _, rfl, rfl, rfl, by decide⟩

/-- C6 (amended): when a competing session durably commits a record with the
same key between this request's lookup and its commit, the INSERT violates
the unique constraint, the transaction fails and rolls back, and the caller
receives 500 `INTERNAL_ERROR` — `_handle_service_errors` has no entry for
the IntegrityError and neither `service.py` nor `wallet.py` retries; the
caller must resubmit to take the Hit path. -/
theorem c6_unique_race_no_retry (tag : FlowTag) (db : DB)
    (other : IdempotencyKey) (uid aid : Nat) (a : Int)
    (extra d : Option String) (s : String) (hs : (s != "") = true)
    (hkey : other.key = s) (db2 : DB) (res : ResultBody)
    (hok : run_flow tag db uid aid a extra d (some s) = .ok (db2, res)) :
    route_flow_raced tag db other uid aid a extra d s =
      ({ db with idempotency_keys := db.idempotency_keys ++ [other] },
        .failure 500 "INTERNAL_ERROR" (.unique_violation s)) := by
  unfold route_flow_raced
  rw [hok]
  simp [hkey, hs, handle_service_errors]

/-- C6 counterexample: at the concrete race on key `K2`, the caller gets
500 `INTERNAL_ERROR`, not the cached response the claim promises via an
internal retry. -/
theorem c6_counterexample :
    (route_flow_raced .topup demo_db race_record 4 10 100 none none "K2").2 =
      .failure 500 "INTERNAL_ERROR" (.unique_violation "K2") := rfl

/-- Witness for C6: the amended theorem at the concrete race. -/
theorem c6_witness :
    route_flow_raced .topup demo_db race_record 4 10 100 none none "K2" =
      ({ demo_db with
          idempotency_keys := demo_db.idempotency_keys ++ [race_record] },
        .failure 500 "INTERNAL_ERROR" (.unique_violation "K2")) :=
  c6_unique_race_no_retry .topup demo_db race_record 4 10 100 none none "K2"
    (by decide) rfl _ _ rfl

/-- C7: a missing user wallet at lock time fails the flow with 404
`WALLET_NOT_FOUND` and the rolled-back state is the pre-request state (no
wallet is created); reusing a key against a different endpoint instead fails
with 409 `IDEMPOTENCY_CONFLICT` during the idempotency step, before any
account validation or wallet lookup (the conclusion needs no hypothesis
about accounts, assets or wallets at all). -/
theorem c7_wallet_not_found_or_conflict (tag : FlowTag) (db : DB)
    (uid aid : Nat) (a : Int) (extra d k : Option String)
    (acct : Account) (asset : AssetType) (sys_acct : Account) (sys_w : Wallet) :
    (idem_step db k (endpoint_of tag) = .ok () →
      get_active_account db uid = .ok acct →
      get_active_asset_type db aid = .ok asset →
      get_system_account db (counterparty_of tag) = .ok sys_acct →
      lock_wallet db sys_acct.id aid = .ok sys_w →
      lock_wallet db uid aid = .error (.wallet_not_found uid aid) →
      route_flow tag db uid aid a extra d k =
        (db, .failure 404 "WALLET_NOT_FOUND" (.wallet_not_found uid aid))) ∧
    (∀ s r, (s != "") = true →
      db.idempotency_keys.find? (fun x => x.key == s) = some r →
      r.endpoint ≠ endpoint_of tag →
      route_flow tag db uid aid a extra d (some s) =
        (db, .failure 409 "IDEMPOTENCY_CONFLICT" (.idempotency_conflict s))) := by
  constructor
  · intro h1 h2 h3 h4 h5 h6
    cases tag with
    | topup =>
      simp only [endpoint_of] at h1
      simp only [counterparty_of] at h4
      simp only [route_flow, run_flow, top_up, h1, h2, h3, h4, h5, h6,
        route_mutating, handle_service_errors]
    | bonus =>
      simp only [endpoint_of] at h1
      simp only [counterparty_of] at h4
      simp only [route_flow, run_flow, issue_bonus, h1, h2, h3, h4, h5, h6,
        route_mutating, handle_service_errors]
    | spend_flow =>
      simp only [endpoint_of] at h1
      simp only [counterparty_of] at h4
      simp only [route_flow, run_flow, spend, h1, h2, h3, h4, h6,
        route_mutating, handle_service_errors]
  · intro s r hs hfind hep
    have hs2 : ¬ (s == "") = true := by
      simpa using hs
    have hcheck : check_idempotency db s (endpoint_of tag) =
        .error (.idempotency_conflict s) := by
      unfold check_idempotency
      rw [hfind]
      have : (r.endpoint != endpoint_of tag) = true := by
        simpa using hep
      simp [this]
    have hidem : idem_step db (some s) (endpoint_of tag) =
        .error (.idempotency_conflict s) := by
      unfold idem_step
      simp only []
      rw [if_neg hs2, hcheck]
    have hrun := run_flow_idem_error tag db uid aid a extra d (some s)
      (.idempotency_conflict s) hidem
    simp only [route_flow, hrun, route_mutating, handle_service_errors]

/-- Witness for C7: a top-up for alice in a store where her wallet was never
seeded fails 404 and leaves the store untouched; reusing top-up key `K1`
against the spend endpoint fails 409. -/
theorem c7_witness :
    route_flow .topup wnf_db 4 10 100 none none none =
      (wnf_db, .failure 404 "WALLET_NOT_FOUND" (.wallet_not_found 4 10)) ∧
    route_flow .spend_flow expired_db 4 10 30 none none (some "K1") =
      (expired_db, .failure 409 "IDEMPOTENCY_CONFLICT"
        (.idempotency_conflict "K1")) :=
  ⟨(c7_wallet_not_found_or_conflict .topup wnf_db 4 10 100 none none none
      { id := 4, username := "alice", is_system := false, is_active := true }
      { id := 10, name := "Gold Coins", symbol := "GC", is_active := true }
      { id := 1, username := "system_treasury", is_system := true,
        is_active := true }
      { id := 100, account_id := 1, asset_type_id := 10, balance := 99999999,
        version := 0, updated_at := 0 }).1 rfl rfl rfl rfl rfl rfl,
   (c7_wallet_not_found_or_conflict .spend_flow expired_db 4 10 30 none none
      (some "K1")
      { id := 4, username := "alice", is_system := false, is_active := true }
      { id := 10, name := "Gold Coins", symbol := "GC", is_active := true }
      { id := 3, username := "system_revenue", is_system := true,
        is_active := true }
      { id := 102, account_id := 3, asset_type_id := 10, balance := 0,
        version := 0, updated_at := 0 }).2 "K1"
      { key := "K1", endpoint := "top_up", response_body := demo_cached_body,
        created_at := 0, expires_at := 10 }
      (by decide) rfl (by decide)⟩

/-- C8: for a seeded wallet and any `limit ∈ [1,100]`, `offset ≥ 0`, the
history query returns the page `ORDER BY created_at DESC LIMIT limit OFFSET
offset` of the wallet's ledger entries — at most `limit` entries, pairwise
non-increasing in `created_at`, drawn from a permutation of exactly the
wallet's entries — together with the total count of all of the wallet's
entries, which is the same whatever `limit` and `offset` are. -/
theorem c8_history_pagination (db : DB) (account_id asset_type_id : Nat)
    (limit offset : Nat) (h1 : 1 ≤ limit) (h2 : limit ≤ 100)
    (acct : Account) (asset : AssetType) (w : Wallet)
    (hacct : get_active_account db account_id = .ok acct)
    (hasset : get_active_asset_type db asset_type_id = .ok asset)
    (hw : db.wallets.find? (fun w0 => w0.account_id == account_id &&
      w0.asset_type_id == asset_type_id) = some w) :
    ∃ page,
      get_transaction_history db account_id asset_type_id limit offset =
        .ok (page,
          (db.transactions.filter (fun t => t.wallet_id == w.id)).length) ∧
      page = (((db.transactions.filter (fun t => t.wallet_id == w.id)).mergeSort
        (fun a b => decide (b.created_at ≤ a.created_at))).drop offset).take
          limit ∧
      page.length ≤ limit ∧
      List.Pairwise (fun a b => b.created_at ≤ a.created_at) page ∧
      ((db.transactions.filter (fun t => t.wallet_id == w.id)).mergeSort
        (fun a b => decide (b.created_at ≤ a.created_at))).Perm
          (db.transactions.filter (fun t => t.wallet_id == w.id)) ∧
      (∀ limit2 offset2, ∃ page2,
        get_transaction_history db account_id asset_type_id limit2 offset2 =
          .ok (page2,
            (db.transactions.filter (fun t => t.wallet_id == w.id)).length)) := by
  have hrun : ∀ l o, get_transaction_history db account_id asset_type_id l o =
      .ok ((((db.transactions.filter (fun t => t.wallet_id == w.id)).mergeSort
        (fun a b => decide (b.created_at ≤ a.created_at))).drop o).take l,
        (db.transactions.filter (fun t => t.wallet_id == w.id)).length) := by
    intro l o
    simp only [get_transaction_history, hacct, hasset, hw]
  have htrans : ∀ a b c : Transaction,
      (decide (b.created_at ≤ a.created_at)) = true →
      (decide (c.created_at ≤ b.created_at)) = true →
      (decide (c.created_at ≤ a.created_at)) = true := by
    intro a b c hab hbc
    rw [decide_eq_true_eq] at hab hbc ⊢
    omega
  have htot : ∀ a b : Transaction,
      ((decide (b.created_at ≤ a.created_at)) ||
        (decide (a.created_at ≤ b.created_at))) = true := by
    intro a b
    rcases Nat.le_total b.created_at a.created_at with h | h <;> simp [h]
  have hsorted := List.sorted_mergeSort htrans htot
    (db.transactions.filter (fun t => t.wallet_id == w.id))
  refine ⟨_, hrun limit offset, rfl, List.length_take_le _ _, ?_, ?_, ?_⟩
  · refine List.Pairwise.imp (fun hd => decide_eq_true_eq.mp hd) ?_
    exact hsorted.sublist ((List.take_sublist _ _).trans (List.drop_sublist _ _))
  · exact List.mergeSort_perm _ _
  · intro limit2 offset2
    exact ⟨_, hrun limit2 offset2⟩

/-- Witness for C8: alice's history in `hist_db` with `limit = 2`,
`offset = 0`. -/
theorem c8_witness :
    ∃ page,
      get_transaction_history hist_db 4 10 2 0 =
        .ok (page,
          (hist_db.transactions.filter (fun t => t.wallet_id == 103)).length) ∧
      page = (((hist_db.transactions.filter
        (fun t => t.wallet_id == 103)).mergeSort
          (fun a b => decide (b.created_at ≤ a.created_at))).drop 0).take 2 ∧
      page.length ≤ 2 ∧
      List.Pairwise (fun a b => b.created_at ≤ a.created_at) page ∧
      ((hist_db.transactions.filter (fun t => t.wallet_id == 103)).mergeSort
        (fun a b => decide (b.created_at ≤ a.created_at))).Perm
          (hist_db.transactions.filter (fun t => t.wallet_id == 103)) ∧
      (∀ limit2 offset2, ∃ page2,
        get_transaction_history hist_db 4 10 limit2 offset2 =
          .ok (page2,
            (hist_db.transactions.filter
              (fun t => t.wallet_id == 103)).length)) :=
  c8_history_pagination hist_db 4 10 2 0 (by decide) (by decide)
    { id := 4, username := "alice", is_system := false, is_active := true }
    { id := 10, name := "Gold Coins", symbol := "GC", is_active := true }
    { id := 103, account_id := 4, asset_type_id := 10, balance := 500,
      version := 0, updated_at := 0 }
    rfl rfl rfl

theorem get_active_account_error_kind {db : DB} {i : Nat} {e : Err}
    (h : get_active_account db i = .error e) : ∃ s, e = .account_not_found s := by
  unfold get_active_account at h
  split at h
  · exact ⟨_, (Except.error.injEq _ _ ▸ h).symm⟩
  · split at h
    · exact Except.noConfusion h
    · exact ⟨_, (Except.error.injEq _ _ ▸ h).symm⟩

theorem get_active_asset_type_error_kind {db : DB} {i : Nat} {e : Err}
    (h : get_active_asset_type db i = .error e) :
    ∃ j, e = .asset_type_not_found j := by
  unfold get_active_asset_type at h
  split at h
  · exact ⟨_, (Except.error.injEq _ _ ▸ h).symm⟩
  · split at h
    · exact Except.noConfusion h
    · exact ⟨_, (Except.error.injEq _ _ ▸ h).symm⟩

theorem get_system_account_error_kind {db : DB} {u : String} {e : Err}
    (h : get_system_account db u = .error e) : ∃ s, e = .account_not_found s := by
  unfold get_system_account at h
  split at h
  · exact ⟨_, (Except.error.injEq _ _ ▸ h).symm⟩
  · exact Except.noConfusion h

theorem lock_wallet_error_kind {db : DB} {i j : Nat} {e : Err}
    (h : lock_wallet db i j = .error e) : ∃ x y, e = .wallet_not_found x y := by
  unfold lock_wallet at h
  split at h
  · exact ⟨_, _, (Except.error.injEq _ _ ▸ h).symm⟩
  · exact Except.noConfusion h

theorem idem_step_error_kind {db : DB} {k : Option String} {ep : String} {e : Err}
    (h : idem_step db k ep = .error e) :
    (∃ s, e = .idempotency_conflict s) ∨
    ∃ s c, e = .duplicate_idempotent_request s c := by
  unfold idem_step at h
  split at h
  · exact Except.noConfusion h
  · split at h
    · exact Except.noConfusion h
    · split at h
      next heq =>
        unfold check_idempotency at heq
        split at heq
        · exact Except.noConfusion heq
        · split at heq
          · exact Or.inl ⟨_, ((Except.error.injEq _ _ ▸ h).symm.trans
              (Except.error.injEq _ _ ▸ heq).symm)⟩
          · exact Except.noConfusion heq
      next heq => exact Except.noConfusion h
      next cached heq =>
        exact Or.inr ⟨_, _, (Except.error.injEq _ _ ▸ h).symm⟩

theorem apply_pair_no_negative {db : DB} {src dst : Nat} {a : Int} {ref : Nat}
    {ty : String} {d1 d2 k : Option String} {ws : Wallet}
    (hs : find_wallet db src = some ws) (hbal : ¬ ws.balance - a < 0) :
    ∀ wid b, apply_pair db src dst a ref ty d1 d2 k ≠
      .error (.negative_balance wid b) := by
  intro wid b h
  unfold apply_pair at h
  split at h
  next heq =>
    rw [apply_debit_ok hs hbal] at heq
    exact Except.noConfusion heq
  next p heq =>
    split at h
    next heq2 =>
      have hk := apply_credit_error_kind heq2
      rw [hk] at h
      have := (Except.error.injEq _ _ ▸ h)
      exact Err.noConfusion this
    next heq2 => exact Except.noConfusion h

/-- C9: the `NegativeBalanceError` branch inside `_apply_debit`
(`new_balance < 0`) is unreachable from all three mutating flows: each flow
debits its source wallet only after checking `source.balance >= amount`
under the same lock, and `_apply_credit` has no such branch, so no flow ever
returns `negative_balance`. -/
theorem c9_negative_balance_unreachable (tag : FlowTag) (db : DB)
    (uid aid : Nat) (a : Int) (extra d k : Option String)
    (hwf : db.WF) (ha : 0 < a) :
    ∀ wid b, run_flow tag db uid aid a extra d k ≠
      .error (.negative_balance wid b) := by
  intro wid b hcontra
  cases tag with
  | topup =>
    simp only [run_flow, top_up] at hcontra
    split at hcontra
    next e heq =>
      have he : e = Err.negative_balance wid b := Except.error.injEq _ _ ▸ hcontra
      rcases idem_step_error_kind heq with ⟨s, hk⟩ | ⟨s, c, hk⟩ <;>
        exact Err.noConfusion (hk.symm.trans he)
    next u heq0 =>
    cases u
    split at hcontra
    next e heq =>
      have he : e = Err.negative_balance wid b := Except.error.injEq _ _ ▸ hcontra
      rcases get_active_account_error_kind heq with ⟨s, hk⟩
      exact Err.noConfusion (hk.symm.trans he)
    next acct heq1 =>
    split at hcontra
    next e heq =>
      have he : e = Err.negative_balance wid b := Except.error.injEq _ _ ▸ hcontra
      rcases get_active_asset_type_error_kind heq with ⟨s, hk⟩
      exact Err.noConfusion (hk.symm.trans he)
    next asset heq2 =>
    split at hcontra
    next e heq =>
      have he : e = Err.negative_balance wid b := Except.error.injEq _ _ ▸ hcontra
      rcases get_system_account_error_kind heq with ⟨s, hk⟩
      exact Err.noConfusion (hk.symm.trans he)
    next sys heq3 =>
    split at hcontra
    next e heq =>
      have he : e = Err.negative_balance wid b := Except.error.injEq _ _ ▸ hcontra
      rcases lock_wallet_error_kind heq with ⟨x, y, hk⟩
      exact Err.noConfusion (hk.symm.trans he)
    next ws heq4 =>
    split at hcontra
    next e heq =>
      have he : e = Err.negative_balance wid b := Except.error.injEq _ _ ▸ hcontra
      rcases lock_wallet_error_kind heq with ⟨x, y, hk⟩
      exact Err.noConfusion (hk.symm.trans he)
    next wd heq5 =>
    split at hcontra
    next hlt => exact Err.noConfusion (Except.error.injEq _ _ ▸ hcontra)
    next hge =>
    split at hcontra
    next e heq =>
      have he : e = Err.negative_balance wid b := Except.error.injEq _ _ ▸ hcontra
      have hes := lock_wallet_ok_elim heq4
      have hfs : find_wallet db ws.id = some ws := find_wallet_self hwf.1 hes.1
      have hfs0 : find_wallet { db with next_id := db.next_id + 1 } ws.id =
        some ws := hfs
      have hbal2 : ¬ ws.balance - a < 0 := fun hc => hge (by omega)
      exact apply_pair_no_negative hfs0 hbal2 wid b (by rw [heq, he])
    next p heq6 => exact Except.noConfusion hcontra
  | bonus =>
    simp only [run_flow, issue_bonus] at hcontra
    split at hcontra
    next e heq =>
      have he : e = Err.negative_balance wid b := Except.error.injEq _ _ ▸ hcontra
      rcases idem_step_error_kind heq with ⟨s, hk⟩ | ⟨s, c, hk⟩ <;>
        exact Err.noConfusion (hk.symm.trans he)
    next u heq0 =>
    cases u
    split at hcontra
    next e heq =>
      have he : e = Err.negative_balance wid b := Except.error.injEq _ _ ▸ hcontra
      rcases get_active_account_error_kind heq with ⟨s, hk⟩
      exact Err.noConfusion (hk.symm.trans he)
    next acct heq1 =>
    split at hcontra
    next e heq =>
      have he : e = Err.negative_balance wid b := Except.error.injEq _ _ ▸ hcontra
      rcases get_active_asset_type_error_kind heq with ⟨s, hk⟩
      exact Err.noConfusion (hk.symm.trans he)
    next asset heq2 =>
    split at hcontra
    next e heq =>
      have he : e = Err.negative_balance wid b := Except.error.injEq _ _ ▸ hcontra
      rcases get_system_account_error_kind heq with ⟨s, hk⟩
      exact Err.noConfusion (hk.symm.trans he)
    next sys heq3 =>
    split at hcontra
    next e heq =>
      have he : e = Err.negative_balance wid b := Except.error.injEq _ _ ▸ hcontra
      rcases lock_wallet_error_kind heq with ⟨x, y, hk⟩
      exact Err.noConfusion (hk.symm.trans he)
    next ws heq4 =>
    split at hcontra
    next e heq =>
      have he : e = Err.negative_balance wid b := Except.error.injEq _ _ ▸ hcontra
      rcases lock_wallet_error_kind heq with ⟨x, y, hk⟩
      exact Err.noConfusion (hk.symm.trans he)
    next wd heq5 =>
    split at hcontra
    next hlt => exact Err.noConfusion (Except.error.injEq _ _ ▸ hcontra)
    next hge =>
    split at hcontra
    next e heq =>
      have he : e = Err.negative_balance wid b := Except.error.injEq _ _ ▸ hcontra
      have hes := lock_wallet_ok_elim heq4
      have hfs : find_wallet db ws.id = some ws := find_wallet_self hwf.1 hes.1
      have hfs0 : find_wallet { db with next_id := db.next_id + 1 } ws.id =
        some ws := hfs
      have hbal2 : ¬ ws.balance - a < 0 := fun hc => hge (by omega)
      exact apply_pair_no_negative hfs0 hbal2 wid b (by rw [heq, he])
    next p heq6 => exact Except.noConfusion hcontra
  | spend_flow =>
    simp only [run_flow, spend] at hcontra
    split at hcontra
    next e heq =>
      have he : e = Err.negative_balance wid b := Except.error.injEq _ _ ▸ hcontra
      rcases idem_step_error_kind heq with ⟨s, hk⟩ | ⟨s, c, hk⟩ <;>
        exact Err.noConfusion (hk.symm.trans he)
    next u heq0 =>
    cases u
    split at hcontra
    next e heq =>
      have he : e = Err.negative_balance wid b := Except.error.injEq _ _ ▸ hcontra
      rcases get_active_account_error_kind heq with ⟨s, hk⟩
      exact Err.noConfusion (hk.symm.trans he)
    next acct heq1 =>
    split at hcontra
    next e heq =>
      have he : e = Err.negative_balance wid b := Except.error.injEq _ _ ▸ hcontra
      rcases get_active_asset_type_error_kind heq with ⟨s, hk⟩
      exact Err.noConfusion (hk.symm.trans he)
    next asset heq2 =>
    split at hcontra
    next e heq =>
      have he : e = Err.negative_balance wid b := Except.error.injEq _ _ ▸ hcontra
      rcases get_system_account_error_kind heq with ⟨s, hk⟩
      exact Err.noConfusion (hk.symm.trans he)
    next sys heq3 =>
    split at hcontra
    next e heq =>
      have he : e = Err.negative_balance wid b := Except.error.injEq _ _ ▸ hcontra
      rcases lock_wallet_error_kind heq with ⟨x, y, hk⟩
      exact Err.noConfusion (hk.symm.trans he)
    next ws heq4 =>
    split at hcontra
    next hlt => exact Err.noConfusion (Except.error.injEq _ _ ▸ hcontra)
    next hge =>
    split at hcontra
    next e heq =>
      have he : e = Err.negative_balance wid b := Except.error.injEq _ _ ▸ hcontra
      rcases lock_wallet_error_kind heq with ⟨x, y, hk⟩
      exact Err.noConfusion (hk.symm.trans he)
    next wd heq5 =>
    split at hcontra
    next e heq =>
      have he : e = Err.negative_balance wid b := Except.error.injEq _ _ ▸ hcontra
      have hes := lock_wallet_ok_elim heq4
      have hfs : find_wallet db ws.id = some ws := find_wallet_self hwf.1 hes.1
      have hfs0 : find_wallet { db with next_id := db.next_id + 1 } ws.id =
        some ws := hfs
      have hbal2 : ¬ ws.balance - a < 0 := fun hc => hge (by omega)
      exact apply_pair_no_negative hfs0 hbal2 wid b (by rw [heq, he])
    next p heq6 => exact Except.noConfusion hcontra

theorem maybe_store_next_id (db : DB) (k : Option String) (ep : String)
    (res : ResultBody) :
    (maybe_store_idempotency db k ep res).next_id = db.next_id := by
  unfold maybe_store_idempotency store_idempotency
  cases k with
  | none => rfl
  | some s =>
    dsimp only
    split
    · rfl
    · rfl

theorem pair_post_wallets (db0 : DB) (src dst : Nat) (bsrc bdst a : Int)
    (ref : Nat) (ty : String) (d1 d2 k : Option String) :
    (pair_post db0 src dst bsrc bdst a ref ty d1 d2 k).wallets =
      update_wallet_list
        (update_wallet_list db0.wallets src (fun w0 =>
          { w0 with balance := bsrc - a, version := w0.version + 1,
                    updated_at := db0.now }))
        dst (fun w0 =>
          { w0 with balance := bdst + a, version := w0.version + 1,
                    updated_at := db0.now }) := rfl

theorem pair_post_next_id (db0 : DB) (src dst : Nat) (bsrc bdst a : Int)
    (ref : Nat) (ty : String) (d1 d2 k : Option String) :
    (pair_post db0 src dst bsrc bdst a ref ty d1 d2 k).next_id =
      db0.next_id + 2 := rfl

theorem nodup_update_wallet_list {l : List Wallet} {wid : Nat}
    {f : Wallet → Wallet} (hf : ∀ w, (f w).id = w.id)
    (h : (l.map (fun w => w.id)).Nodup) :
    ((update_wallet_list l wid f).map (fun w => w.id)).Nodup := by
  rw [map_id_update_wallet_list _ _ _ hf]
  exact h

theorem route_mutating_fst_error (db : DB) (e : Err) :
    (route_mutating db (.error e)).1 = db := by
  unfold route_mutating
  cases e <;> rfl

/-- Every committed flow leaves the state in the shared post-flow shape. -/
theorem run_flow_ok_post (tag : FlowTag) {db : DB} {uid aid : Nat} {a : Int}
    {extra d k : Option String} {db2 : DB} {res : ResultBody} (hwf : db.WF)
    (hok : run_flow tag db uid aid a extra d k = .ok (db2, res)) :
    ∃ src dst bsrc bdst ty ep d1 d2,
      db2 = maybe_store_idempotency
        (pair_post { db with next_id := db.next_id + 1 } src dst bsrc bdst a
          db.next_id ty d1 d2 k) k ep res := by
  cases tag with
  | topup =>
    have hok2 : top_up db uid aid a extra d k = .ok (db2, res) := hok
    obtain ⟨acct, asset, sys, ws, wd, h1, h2, h3, h4, h5, h6, h7, hres, hdb2⟩ :=
      top_up_ok_shape hwf hok2
    exact ⟨ws.id, wd.id, ws.balance,
      bdst_of ws.id wd.id ws.balance wd.balance a, _, _, _, _, hdb2⟩
  | bonus =>
    have hok2 : issue_bonus db uid aid a extra d k = .ok (db2, res) := hok
    obtain ⟨acct, asset, sys, ws, wd, h1, h2, h3, h4, h5, h6, h7, hres, hdb2⟩ :=
      issue_bonus_ok_shape hwf hok2
    exact ⟨ws.id, wd.id, ws.balance,
      bdst_of ws.id wd.id ws.balance wd.balance a, _, _, _, _, hdb2⟩
  | spend_flow =>
    have hok2 : spend db uid aid a extra d k = .ok (db2, res) := hok
    obtain ⟨acct, asset, sys, ws, wd, h1, h2, h3, h4, h5, h6, h7, hres, hdb2⟩ :=
      spend_ok_shape hwf hok2
    exact ⟨ws.id, wd.id, ws.balance,
      bdst_of ws.id wd.id ws.balance wd.balance a, _, _, _, _, hdb2⟩

/-- The post-flow state is well-formed again. -/
theorem wf_post {db : DB} (hwf : db.WF) (src dst : Nat) (bsrc bdst a : Int)
    (ty ep : String) (d1 d2 k : Option String) (res : ResultBody) :
    (maybe_store_idempotency
      (pair_post { db with next_id := db.next_id + 1 } src dst bsrc bdst a
        db.next_id ty d1 d2 k) k ep res).WF := by
  unfold DB.WF
  rw [maybe_store_wallets, maybe_store_transactions, maybe_store_next_id,
    pair_post_wallets, pair_post_transactions, pair_post_next_id]
  refine ⟨?_, ?_, ?_⟩
  · exact nodup_update_wallet_list (fun w => rfl)
      (nodup_update_wallet_list (fun w => rfl) hwf.1)
  · intro t ht
    dsimp only at ht ⊢
    simp only [List.mem_append, List.mem_cons, List.not_mem_nil, or_false] at ht
    rcases ht with ht | ht | ht
    · have := hwf.2.1 t ht
      omega
    · subst ht
      dsimp only [debit_tx_of]
      omega
    · subst ht
      dsimp only [credit_tx_of]
      omega
  · intro t ht
    dsimp only at ht ⊢
    simp only [List.mem_append, List.mem_cons, List.not_mem_nil, or_false] at ht
    rcases ht with ht | ht | ht
    · have := hwf.2.2 t ht
      omega
    · subst ht
      dsimp only [debit_tx_of]
      omega
    · subst ht
      dsimp only [credit_tx_of]
      omega

/-- Witness for C9: spending alice's whole balance (the boundary case) never
produces `negative_balance`. -/
theorem c9_witness :
    DB.WF demo_db ∧ (0 : Int) < 500 ∧
    run_flow .spend_flow demo_db 4 10 500 none none none ≠
      .error (.negative_balance 103 0) :=
  ⟨by decide, by decide,
    c9_negative_balance_unreachable .spend_flow demo_db 4 10 500 none none none
      (by decide) (by decide) 103 0⟩

/-- One handled request preserves well-formedness and acts on the wallet
table by an id-preserving map whose version increase at each wallet id
equals the number of appended ledger entries on that id. -/
theorem apply_op_find (db : DB) (hwf : db.WF) (op : Op) :
    (apply_op db op).WF ∧
    ∃ new_txs, (apply_op db op).transactions = db.transactions ++ new_txs ∧
    ∀ wid, ∃ g : Wallet → Wallet,
      (∀ w, (g w).id = w.id) ∧
      (∀ w, w.id = wid → (g w).version = w.version +
        (new_txs.filter (fun t => t.wallet_id == wid)).length) ∧
      find_wallet (apply_op db op) wid = (find_wallet db wid).map g := by
  unfold apply_op route_flow
  cases hrun : run_flow op.tag db op.user_account_id op.asset_type_id op.amount
      op.extra op.description op.idempotency_key with
  | error e =>
    rw [route_mutating_fst_error]
    refine ⟨hwf, [], (List.append_nil _).symm, ?_⟩
    intro wid
    refine ⟨fun w => w, fun w => rfl, ?_, ?_⟩
    · intro w hw
      simp
    · cases find_wallet db wid <;> rfl
  | ok p =>
    obtain ⟨db2, res⟩ := p
    obtain ⟨src, dst, bsrc, bdst, ty, ep, d1, d2, hdb2⟩ :=
      run_flow_ok_post op.tag hwf hrun
    simp only [route_mutating]
    subst hdb2
    refine ⟨wf_post hwf src dst bsrc bdst op.amount ty ep d1 d2
      op.idempotency_key res,
      [debit_tx_of { db with next_id := db.next_id + 1 } src bsrc op.amount
        db.next_id ty d1 op.idempotency_key,
       credit_tx_of { db with next_id := db.next_id + 2 } dst bdst op.amount
        db.next_id ty d2 op.idempotency_key], ?_, ?_⟩
    · rw [maybe_store_transactions, pair_post_transactions]
    · intro wid
      have hfw := flow_post_find_wallet { db with next_id := db.next_id + 1 }
        src dst bsrc bdst op.amount db.next_id ty ep d1 d2 op.idempotency_key
        op.idempotency_key res wid
      refine ⟨fun w =>
        (fun w1 => if w1.id == dst then
            { w1 with balance := bdst + op.amount, version := w1.version + 1,
                      updated_at := db.now }
          else w1)
        ((fun w0 => if w0.id == src then
            { w0 with balance := bsrc - op.amount, version := w0.version + 1,
                      updated_at := db.now }
          else w0) w), ?_, ?_, hfw⟩
      · intro w
        by_cases h1 : (w.id == src) = true <;> by_cases h2 : (w.id == dst) = true <;>
          simp [h1, h2]
      intro w hw
      subst hw
      by_cases h1 : w.id = src
      · by_cases h2 : w.id = dst
        · subst h1
          subst h2
          simp [debit_tx_of, credit_tx_of]
        · subst h1
          simp [debit_tx_of, credit_tx_of, h2, Ne.symm h2]
      · by_cases h2 : w.id = dst
        · subst h2
          simp [debit_tx_of, credit_tx_of, h1, Ne.symm h1]
        · simp [debit_tx_of, credit_tx_of, h1, h2, Ne.symm h1, Ne.symm h2]

/-- Composing `apply_op_find` over a request sequence: the ledger only grows,
and each wallet's version grows by exactly the number of entries appended on
that wallet. -/
theorem run_ops_version (ops : List Op) : ∀ (db : DB), db.WF → ∀ (wid : Nat),
    ∃ suffix, ∃ g : Wallet → Wallet,
      (run_ops db ops).transactions = db.transactions ++ suffix ∧
      (∀ w, (g w).id = w.id) ∧
      (∀ w, w.id = wid → (g w).version = w.version +
        (suffix.filter (fun t => t.wallet_id == wid)).length) ∧
      find_wallet (run_ops db ops) wid = (find_wallet db wid).map g := by
  induction ops with
  | nil =>
    intro db hwf wid
    refine ⟨[], fun w => w, (List.append_nil _).symm, fun w => rfl, ?_, ?_⟩
    · intro w hw
      simp
    · show find_wallet db wid = (find_wallet db wid).map (fun w => w)
      cases find_wallet db wid <;> rfl
  | cons op ops ih =>
    intro db hwf wid
    obtain ⟨hwf2, new1, htx1, hmap1⟩ := apply_op_find db hwf op
    obtain ⟨g1, hgid1, hgver1, hgfind1⟩ := hmap1 wid
    obtain ⟨suffix2, g2, htx2, hgid2, hgver2, hgfind2⟩ := ih (apply_op db op) hwf2 wid
    refine ⟨new1 ++ suffix2, fun w => g2 (g1 w), ?_, ?_, ?_, ?_⟩
    · show (run_ops (apply_op db op) ops).transactions = _
      rw [htx2, htx1, List.append_assoc]
    · intro w
      rw [hgid2, hgid1]
    · intro w hw
      have hid1 : (g1 w).id = wid := by rw [hgid1, hw]
      rw [hgver2 (g1 w) hid1, hgver1 w hw, List.filter_append,
        List.length_append]
      omega
    · show find_wallet (run_ops (apply_op db op) ops) wid = _
      rw [hgfind2, hgfind1, Option.map_map]
      rfl

/-- C10: every debit and every credit bumps the touched wallet's `version`
by exactly 1 and refreshes its `updated_at` while appending exactly one
ledger entry for that wallet; hence after any sequence of handled requests
(committed or rolled back) a wallet's version equals its initial version
plus the number of ledger entries appended for it, so version never
decreases and strictly increases exactly when the wallet gains entries. -/
theorem c10_version_counts_entries (db : DB) (hwf : db.WF) (ops : List Op)
    (wid : Nat) (w : Wallet) (hfind : find_wallet db wid = some w) :
    (∀ (db0 : DB) (wid0 : Nat) (a : Int) (ref : Nat) (ty : String)
      (d k : Option String) (db1 : DB) (tx : Transaction) (w0 : Wallet),
      find_wallet db0 wid0 = some w0 →
      apply_debit db0 wid0 a ref ty d k = .ok (db1, tx) →
      ∃ w1, find_wallet db1 wid0 = some w1 ∧
        w1.version = w0.version + 1 ∧ w1.updated_at = db0.now ∧
        db1.transactions = db0.transactions ++ [tx] ∧ tx.wallet_id = wid0) ∧
    (∀ (db0 : DB) (wid0 : Nat) (a : Int) (ref : Nat) (ty : String)
      (d k : Option String) (db1 : DB) (tx : Transaction) (w0 : Wallet),
      find_wallet db0 wid0 = some w0 →
      apply_credit db0 wid0 a ref ty d k = .ok (db1, tx) →
      ∃ w1, find_wallet db1 wid0 = some w1 ∧
        w1.version = w0.version + 1 ∧ w1.updated_at = db0.now ∧
        db1.transactions = db0.transactions ++ [tx] ∧ tx.wallet_id = wid0) ∧
    ∃ suffix w2, (run_ops db ops).transactions = db.transactions ++ suffix ∧
      find_wallet (run_ops db ops) wid = some w2 ∧
      w2.version = w.version +
        (suffix.filter (fun t => t.wallet_id == wid)).length ∧
      w.version ≤ w2.version ∧
      (0 < (suffix.filter (fun t => t.wallet_id == wid)).length →
        w.version < w2.version) := by
  refine ⟨?_, ?_, ?_⟩
  · intro db0 wid0 a ref ty d k db1 tx w0 hf hok
    unfold apply_debit at hok
    rw [hf] at hok
    simp only [] at hok
    split at hok
    · exact Except.noConfusion hok
    · have hw0 : w0.id = wid0 := find_wallet_id_of hf
      injection hok with hp
      injection hp with hdb1 htx
      subst hdb1
      subst htx
      refine ⟨{ w0 with balance := w0.balance - a, version := w0.version + 1, updated_at := db0.now }, ?_, rfl, rfl, rfl, rfl⟩
      rw [find_wallet_eq]
      show (update_wallet_list db0.wallets wid0 (fun x0 =>
        { x0 with balance := w0.balance - a, version := x0.version + 1,
                  updated_at := db0.now })).find? (fun x => x.id == wid0) = _
      rw [find?_update_wallet_list db0.wallets wid0 wid0 (fun x0 =>
        { x0 with balance := w0.balance - a, version := x0.version + 1,
                  updated_at := db0.now }) (fun x => rfl),
        ← find_wallet_eq, hf]
      simp [hw0]
  · intro db0 wid0 a ref ty d k db1 tx w0 hf hok
    unfold apply_credit at hok
    rw [hf] at hok
    simp only [] at hok
    have hw0 : w0.id = wid0 := find_wallet_id_of hf
    injection hok with hp
    injection hp with hdb1 htx
    subst hdb1
    subst htx
    refine ⟨{ w0 with balance := w0.balance + a, version := w0.version + 1, updated_at := db0.now }, ?_, rfl, rfl, rfl, rfl⟩
    rw [find_wallet_eq]
    show (update_wallet_list db0.wallets wid0 (fun x0 =>
      { x0 with balance := w0.balance + a, version := x0.version + 1,
                updated_at := db0.now })).find? (fun x => x.id == wid0) = _
    rw [find?_update_wallet_list db0.wallets wid0 wid0 (fun x0 =>
      { x0 with balance := w0.balance + a, version := x0.version + 1,
                updated_at := db0.now }) (fun x => rfl),
      ← find_wallet_eq, hf]
    simp [hw0]
  · obtain ⟨suffix, g, htx, hgid, hgver, hgfind⟩ := run_ops_version ops db hwf wid
    have hw : w.id = wid := find_wallet_id_of hfind
    refine ⟨suffix, g w, htx, ?_, hgver w hw, ?_, ?_⟩
    · rw [hgfind, hfind]
      rfl
    · rw [hgver w hw]
      omega
    · intro hpos
      rw [hgver w hw]
      omega

/-- Witness for C10: a top-up, a spend and a refused over-spend on alice's
wallet (103), starting from the seed state. -/
theorem c10_witness :
    (∀ (db0 : DB) (wid0 : Nat) (a : Int) (ref : Nat) (ty : String)
      (d k : Option String) (db1 : DB) (tx : Transaction) (w0 : Wallet),
      find_wallet db0 wid0 = some w0 →
      apply_debit db0 wid0 a ref ty d k = .ok (db1, tx) →
      ∃ w1, find_wallet db1 wid0 = some w1 ∧
        w1.version = w0.version + 1 ∧ w1.updated_at = db0.now ∧
        db1.transactions = db0.transactions ++ [tx] ∧ tx.wallet_id = wid0) ∧
    (∀ (db0 : DB) (wid0 : Nat) (a : Int) (ref : Nat) (ty : String)
      (d k : Option String) (db1 : DB) (tx : Transaction) (w0 : Wallet),
      find_wallet db0 wid0 = some w0 →
      apply_credit db0 wid0 a ref ty d k = .ok (db1, tx) →
      ∃ w1, find_wallet db1 wid0 = some w1 ∧
        w1.version = w0.version + 1 ∧ w1.updated_at = db0.now ∧
        db1.transactions = db0.transactions ++ [tx] ∧ tx.wallet_id = wid0) ∧
    ∃ suffix w2,
      (run_ops demo_db
        [{ tag := .topup, user_account_id := 4, asset_type_id := 10,
           amount := 100, extra := none, description := none,
           idempotency_key := none },
         { tag := .spend_flow, user_account_id := 4, asset_type_id := 10,
           amount := 30, extra := none, description := none,
           idempotency_key := none },
         { tag := .spend_flow, user_account_id := 4, asset_type_id := 10,
           amount := 999999, extra := none, description := none,
           idempotency_key := none }]).transactions =
        demo_db.transactions ++ suffix ∧
      find_wallet (run_ops demo_db
        [{ tag := .topup, user_account_id := 4, asset_type_id := 10,
           amount := 100, extra := none, description := none,
           idempotency_key := none },
         { tag := .spend_flow, user_account_id := 4, asset_type_id := 10,
           amount := 30, extra := none, description := none,
           idempotency_key := none },
         { tag := .spend_flow, user_account_id := 4, asset_type_id := 10,
           amount := 999999, extra := none, description := none,
           idempotency_key := none }]) 103 = some w2 ∧
      w2.version = 0 +
        (suffix.filter (fun t => t.wallet_id == 103)).length ∧
      0 ≤ w2.version ∧
      (0 < (suffix.filter (fun t => t.wallet_id == 103)).length →
        0 < w2.version) :=
  c10_version_counts_entries demo_db (by decide)
    [{ tag := .topup, user_account_id := 4, asset_type_id := 10,
       amount := 100, extra := none, description := none,
       idempotency_key := none },
     { tag := .spend_flow, user_account_id := 4, asset_type_id := 10,
       amount := 30, extra := none, description := none,
       idempotency_key := none },
     { tag := .spend_flow, user_account_id := 4, asset_type_id := 10,
       amount := 999999, extra := none, description := none,
       idempotency_key := none }] 103
    { id := 103, account_id := 4, asset_type_id := 10, balance := 500,
      version := 0, updated_at := 0 } rfl

end WalletService
